import Mathlib

/-!
# ModuleOpencl (src/opencl/opencl.hpp)

A shallow embedding of the OpenCL benchmark module: the timed pipeline
`make_opencl_benchmark`, device discovery `printInfo` and the per-device loop
`benchmark`.

The OpenCL driver is the environment.  Every driver call gets its raw status
code from an environment record; the C++ bindings turn a status other than
`CL_SUCCESS` into a thrown `cl::Error`, because the header is compiled with
`CL_HPP_ENABLE_EXCEPTIONS` (line 9).  A `float` is represented by its bit
pattern: the module only copies floats, it never computes with them.
-/

namespace OpenclBench

/-! ## Values, errors and results -/

/-- Bit pattern of one `float`. -/
abbrev FloatBits := Nat

/-- The status code `CL_SUCCESS`. -/
def CL_SUCCESS : Int := 0

/-- Line 9: `#define CL_HPP_ENABLE_EXCEPTIONS`. -/
def CL_HPP_ENABLE_EXCEPTIONS : Bool := true

/-- A `cl::Device` handle. -/
structure Device where
  id : Nat
deriving DecidableEq, Repr

/-- A `cl::Error` (also its subclass `cl::BuildError`): status code and the name of the call. -/
structure ClError where
  err : Int
  what : String
deriving DecidableEq, Repr

/-- How a piece of C++ code ends: it returns a value, it throws a `cl::Error`,
or it terminates the process through `exit(code)`. -/
inductive Res (α : Type) where
  | ok (a : α)
  | thrown (e : ClError)
  | exited (code : Nat)
deriving DecidableEq, Repr

/-- Code running over a mutable state `σ`; the state survives a throw. -/
def Exec (σ α : Type) : Type := σ → Res α × σ

namespace Exec

/-- Return a value, state untouched. -/
def ret {σ α : Type} (a : α) : Exec σ α := fun s => (Res.ok a, s)

/-- Sequencing: a throw or an exit of the first part skips the second. -/
def andThen {σ α β : Type} (m : Exec σ α) (f : α → Exec σ β) : Exec σ β := fun s =>
  match m s with
  | (Res.ok a, s') => f a s'
  | (Res.thrown e, s') => (Res.thrown e, s')
  | (Res.exited c, s') => (Res.exited c, s')

/-- The block `try { body } catch (cl::Error e) { handler }`: only a thrown `cl::Error` is caught. -/
def tryCatch {σ α : Type} (body : Exec σ α) (handler : ClError → Exec σ α) : Exec σ α := fun s =>
  match body s with
  | (Res.thrown e, s') => handler e s'
  | r => r

/-- Change the state. -/
def modify {σ : Type} (f : σ → σ) : Exec σ Unit := fun s => (Res.ok (), f s)

/-- Read the state. -/
def read {σ : Type} : Exec σ σ := fun s => (Res.ok s, s)

/-- The call `exit(code)`. -/
def exit {σ α : Type} (code : Nat) : Exec σ α := fun s => (Res.exited code, s)

/-- Lift a result into the state-passing code. -/
def lift {σ α : Type} (r : Res α) : Exec σ α := fun s => (r, s)

end Exec

instance (σ : Type) : Monad (Exec σ) where
  pure := Exec.ret
  bind := Exec.andThen

/-- The error handler `cl::detail::errHandler` of the OpenCL C++ bindings: with
`CL_HPP_ENABLE_EXCEPTIONS` a status other than `CL_SUCCESS` is thrown as a
`cl::Error`, without it the status is returned to the caller. -/
def errHandler (err : Int) (what : String) : Res Int :=
  if CL_HPP_ENABLE_EXCEPTIONS then
    if err ≠ CL_SUCCESS then Res.thrown ⟨err, what⟩ else Res.ok err
  else Res.ok err

/-! ## The timed pipeline -/

/-- The driver calls of one `make_opencl_benchmark` invocation, in program order. -/
inductive Step where
  /-- Line 44, `cl::Context context({device})`. -/
  | createContext
  /-- Line 45, `cl::CommandQueue queue(context, device)`. -/
  | createQueue
  /-- Line 53, `cl::Program program(context, sources)`. -/
  | createProgram
  /-- Line 54, `program.build({device})`. -/
  | buildProgram
  /-- Line 59, `cl::Kernel(program, KERNEL_FUNCTION)`. -/
  | createKernel
  /-- Line 65, the buffer `cl_testIter`. -/
  | allocIter
  /-- Line 66, the buffer `cl_matA`. -/
  | allocA
  /-- Line 67, the buffer `cl_matB`. -/
  | allocB
  /-- Line 68, the buffer `cl_matR`. -/
  | allocR
  /-- Line 70, `enqueueWriteBuffer` of `testIter`. -/
  | writeIter
  /-- Line 71, `enqueueWriteBuffer` of `matA`. -/
  | writeA
  /-- Line 72, `enqueueWriteBuffer` of `matB`. -/
  | writeB
  /-- Line 75, the kernel launch and `.wait()`. -/
  | dispatch
  /-- Line 77, `enqueueReadBuffer` into `matR`. -/
  | readR
deriving DecidableEq, Repr, Fintype

/-- The OpenCL entry point behind each call, as `cl::Error::what()` reports it. -/
def Step.api : Step → String
  | Step.createContext => "clCreateContext"
  | Step.createQueue => "clCreateCommandQueue"
  | Step.createProgram => "clCreateProgramWithSource"
  | Step.buildProgram => "clBuildProgram"
  | Step.createKernel => "clCreateKernel"
  | Step.allocIter => "clCreateBuffer"
  | Step.allocA => "clCreateBuffer"
  | Step.allocB => "clCreateBuffer"
  | Step.allocR => "clCreateBuffer"
  | Step.writeIter => "clEnqueueWriteBuffer"
  | Step.writeA => "clEnqueueWriteBuffer"
  | Step.writeB => "clEnqueueWriteBuffer"
  | Step.dispatch => "clEnqueueNDRangeKernel"
  | Step.readR => "clEnqueueReadBuffer"

/-- What the driver does during one invocation of the pipeline. -/
structure RunEnv where
  /-- Status code returned by each driver call. -/
  status : Step → Int
  /-- Nanoseconds by which `high_resolution_clock` advances during each call. -/
  cost : Step → Int
  /-- Clock reading (ns) when the invocation begins. -/
  start : Int
  /-- Contents of a freshly allocated device buffer, per index. -/
  uninit : Step → Nat → FloatBits
  /-- The text of `CL_PROGRAM_BUILD_LOG`. -/
  buildLog : String

/-- What one invocation leaves in its trace. -/
inductive Ev where
  | call (s : Step)
  | now (t : Int)
  | print (text : String)
deriving DecidableEq, Repr

/-- Mutable state while the pipeline runs. -/
structure PipeState where
  /-- Current reading of `high_resolution_clock`, ns. -/
  clock : Int
  /-- Host memory behind the pointer `matR`. -/
  matR : List FloatBits
  /-- Driver calls, clock readings and prints so far. -/
  trace : List Ev
deriving DecidableEq, Repr

/-- One driver call through the C++ bindings: the clock advances, the call is
recorded, and the status goes through `errHandler`. -/
def driver (env : RunEnv) (st : Step) : Exec PipeState Int := fun s =>
  (errHandler (env.status st) (st.api),
   { s with clock := s.clock + env.cost st, trace := s.trace ++ [Ev.call st] })

/-- The expression `std::chrono::high_resolution_clock::now()`. -/
def now : Exec PipeState Int := fun s =>
  (Res.ok s.clock, { s with trace := s.trace ++ [Ev.now s.clock] })

/-- Output to `std::cout`. -/
def cout (text : String) : Exec PipeState Unit :=
  Exec.modify fun s => { s with trace := s.trace ++ [Ev.print text] }

/-- A `cl::Buffer` of `n` floats right after `clCreateBuffer`: nothing written yet. -/
def allocBuffer (env : RunEnv) (st : Step) (n : Nat) : List FloatBits :=
  (List.range n).map (env.uninit st)

/-- Copy `n` floats from `src` over the first `n` floats of `dst`
(`enqueueWriteBuffer` and `enqueueReadBuffer` with offset 0). -/
def copyFloats (n : Nat) (src dst : List FloatBits) : List FloatBits :=
  src.take n ++ dst.drop n

/-- The kernel launch over `cl::NDRange(matSize)`: work-item `gid` stores
`kernel testIter A B gid` at index `gid` of the output buffer. -/
def runKernel (kernel : Nat → List FloatBits → List FloatBits → Nat → FloatBits)
    (matSize testIter : Nat) (devA devB devR : List FloatBits) : List FloatBits :=
  (List.range matSize).foldl (fun buf gid => buf.set gid (kernel testIter devA devB gid)) devR

/-- `std::chrono::duration_cast<std::chrono::microseconds>(e - s).count()`:
nanoseconds to microseconds, truncating towards zero. -/
def toMicroseconds (e s : Int) : Int := (e - s).tdiv 1000

/-- Lines 40 to 83, `ModuleOpencl::make_opencl_benchmark`.

`kernel` stands for the entry point `vector_add` of `opencl/kernel.cl`. -/
def make_opencl_benchmark (kernel : Nat → List FloatBits → List FloatBits → Nat → FloatBits)
    (env : RunEnv) (_device : Device) (matSize testIter : Nat)
    (matA matB : List FloatBits) : Exec PipeState Int := do
  let _ ← driver env Step.createContext
  let _ ← driver env Step.createQueue
  let _ ← driver env Step.createProgram
  let built ← driver env Step.buildProgram
  if built ≠ CL_SUCCESS then
    cout (" Error building: " ++ env.buildLog ++ "\n")
    Exec.exit 1
  let _ ← driver env Step.createKernel
  let s ← now
  let _ ← driver env Step.allocIter
  let _ ← driver env Step.allocA
  let cl_matA := allocBuffer env Step.allocA matSize
  let _ ← driver env Step.allocB
  let cl_matB := allocBuffer env Step.allocB matSize
  let _ ← driver env Step.allocR
  let cl_matR := allocBuffer env Step.allocR matSize
  let _ ← driver env Step.writeIter
  let _ ← driver env Step.writeA
  let cl_matA := copyFloats matSize matA cl_matA
  let _ ← driver env Step.writeB
  let cl_matB := copyFloats matSize matB cl_matB
  let _ ← driver env Step.dispatch
  let cl_matR := runKernel kernel matSize testIter cl_matA cl_matB cl_matR
  let _ ← driver env Step.readR
  Exec.modify fun st => { st with matR := copyFloats matSize cl_matR st.matR }
  let e ← now
  return toMicroseconds e s

/-- Every driver call of the invocation returns `CL_SUCCESS`. -/
def RunEnv.healthy (env : RunEnv) : Prop := ∀ st, env.status st = CL_SUCCESS

instance (env : RunEnv) : Decidable env.healthy := by
  unfold RunEnv.healthy
  infer_instance

/-- The driver calls in program order. -/
def allSteps : List Step :=
  [Step.createContext, Step.createQueue, Step.createProgram, Step.buildProgram,
   Step.createKernel, Step.allocIter, Step.allocA, Step.allocB, Step.allocR,
   Step.writeIter, Step.writeA, Step.writeB, Step.dispatch, Step.readR]

/-- The `cl::Error` of the first driver call that does not return `CL_SUCCESS`. -/
def pipelineError (env : RunEnv) : Option ClError :=
  allSteps.findSome? fun st =>
    if env.status st ≠ CL_SUCCESS then some ⟨env.status st, st.api⟩ else none

/-- Clock advance during the driver calls made before the first clock reading. -/
def setupCost (env : RunEnv) : Int :=
  env.cost Step.createContext + env.cost Step.createQueue + env.cost Step.createProgram +
  env.cost Step.buildProgram + env.cost Step.createKernel

/-- Clock advance during the driver calls made between the two clock readings. -/
def timedCost (env : RunEnv) : Int :=
  env.cost Step.allocIter + env.cost Step.allocA + env.cost Step.allocB + env.cost Step.allocR +
  env.cost Step.writeIter + env.cost Step.writeA + env.cost Step.writeB +
  env.cost Step.dispatch + env.cost Step.readR

/-- Clock advance from the first host-to-device write to the end of the device-to-host read. -/
def transferCost (env : RunEnv) : Int :=
  env.cost Step.writeIter + env.cost Step.writeA + env.cost Step.writeB +
  env.cost Step.dispatch + env.cost Step.readR

/-- The trace of an invocation in which every driver call succeeds, entered at clock reading `t`. -/
def successTrace (env : RunEnv) (t : Int) : List Ev :=
  [Ev.call Step.createContext, Ev.call Step.createQueue, Ev.call Step.createProgram,
   Ev.call Step.buildProgram, Ev.call Step.createKernel,
   Ev.now (t + setupCost env),
   Ev.call Step.allocIter, Ev.call Step.allocA, Ev.call Step.allocB, Ev.call Step.allocR,
   Ev.call Step.writeIter, Ev.call Step.writeA, Ev.call Step.writeB,
   Ev.call Step.dispatch, Ev.call Step.readR,
   Ev.now (t + setupCost env + timedCost env)]

/-- The trace in the order of the specification (section 4.2, steps 1 to 8):
the four buffers are allocated before the first clock reading. -/
def specTrace (env : RunEnv) (t : Int) : List Ev :=
  [Ev.call Step.createContext, Ev.call Step.createQueue, Ev.call Step.createProgram,
   Ev.call Step.buildProgram, Ev.call Step.createKernel,
   Ev.call Step.allocIter, Ev.call Step.allocA, Ev.call Step.allocB, Ev.call Step.allocR,
   Ev.now (t + setupCost env + (timedCost env - transferCost env)),
   Ev.call Step.writeIter, Ev.call Step.writeA, Ev.call Step.writeB,
   Ev.call Step.dispatch, Ev.call Step.readR,
   Ev.now (t + setupCost env + timedCost env)]

/-- The output buffer on the device when the kernel has run. -/
def deviceOutput (kernel : Nat → List FloatBits → List FloatBits → Nat → FloatBits)
    (env : RunEnv) (n iter : Nat) (A B : List FloatBits) : List FloatBits :=
  runKernel kernel n iter
    (copyFloats n A (allocBuffer env Step.allocA n))
    (copyFloats n B (allocBuffer env Step.allocB n))
    (allocBuffer env Step.allocR n)

/-- The `n` values the kernel computes from the iteration count and the inputs. -/
def kernelOutput (kernel : Nat → List FloatBits → List FloatBits → Nat → FloatBits)
    (n iter : Nat) (A B : List FloatBits) : List FloatBits :=
  (List.range n).map (kernel iter (A.take n) (B.take n))

/-! ## The benchmark loop -/

/-- The workload `BenchmarkedObjectFloat` (declared in `benchmarked-object-float.hpp`):
the fields that `benchmark` reads through `bo->`. -/
structure BenchmarkedObjectFloat where
  vectorSize : Nat
  iterations : Nat
  vecA : List FloatBits
  vecB : List FloatBits
  vecR : List FloatBits
deriving DecidableEq, Repr

/-- What the driver does while `benchmark` handles one catalog entry. -/
structure DeviceEnv where
  /-- Status of `device.getInfo<CL_DEVICE_NAME>()` on line 161. -/
  nameStatus : Int
  /-- The device name that query returns. -/
  name : String
  /-- The driver during pipeline invocation `i` of the loop on line 164. -/
  run : Nat → RunEnv

/-- A call that `benchmark` makes for a device, with its arguments. -/
inductive Call where
  | pipeline (device : Device) (matSize testIter : Nat) (matA matB : List FloatBits)
      (result : Res Int)
  | compute_points (vectorSize iterations : Nat) (time : Int)
  | test_benchmark (bo : BenchmarkedObjectFloat)
deriving DecidableEq, Repr

/-- The text that ends a device's output line. -/
inductive Line where
  | points (text : String)
  | invalid
  | failed
deriving DecidableEq, Repr

/-- Everything `benchmark` does for one catalog entry. -/
structure DeviceReport where
  /-- The catalog entry of this loop iteration. -/
  device : Device
  /-- The device name, once printed. -/
  printedName : Option String
  /-- Calls of `make_opencl_benchmark`, `compute_points` and `test_benchmark`, in order. -/
  calls : List Call
  /-- The outcome printed after the name: the points, "Invalid result" or "Failed". -/
  line : Option Line
deriving DecidableEq, Repr

/-- State of one iteration of the device loop. -/
structure BenchState where
  bo : BenchmarkedObjectFloat
  report : DeviceReport

/-- Record a call in the report. -/
def logCall (c : Call) : Exec BenchState Unit :=
  Exec.modify fun s => { s with report := { s.report with calls := s.report.calls ++ [c] } }

/-- Line 161: query the device name and print it. -/
def printDeviceName (env : DeviceEnv) : Exec BenchState Unit := do
  let _ ← (Exec.lift (errHandler env.nameStatus "clGetDeviceInfo") : Exec BenchState Int)
  Exec.modify fun s => { s with report := { s.report with printedName := some env.name } }

/-- Print the end of the device's line. -/
def printLine (l : Line) : Exec BenchState Unit :=
  Exec.modify fun s => { s with report := { s.report with line := some l } }

/-- Line 165: one call of `make_opencl_benchmark` on the workload; the pipeline
writes into `bo->vecR`. -/
def callPipeline (kernel : Nat → List FloatBits → List FloatBits → Nat → FloatBits)
    (env : RunEnv) (device : Device) : Exec BenchState Int := fun s =>
  let r := make_opencl_benchmark kernel env device s.bo.vectorSize s.bo.iterations
    s.bo.vecA s.bo.vecB ⟨env.start, s.bo.vecR, []⟩
  (r.1,
   { bo := { s.bo with vecR := r.2.matR },
     report := { s.report with calls := s.report.calls ++
       [Call.pipeline device s.bo.vectorSize s.bo.iterations s.bo.vecA s.bo.vecB r.1] } })

/-- Lines 164 to 166: `for (int i = 0; i < 4; ++i) time = make_opencl_benchmark(...)`,
with `remaining` iterations left, the counter at `i` and `time` as assigned so far. -/
def timingLoop (kernel : Nat → List FloatBits → List FloatBits → Nat → FloatBits)
    (env : DeviceEnv) (device : Device) : (remaining i : Nat) → (time : Int) → Exec BenchState Int
  | 0, _, time => pure time
  | remaining + 1, i, _ => do
    let time ← callPipeline kernel (env.run i) device
    timingLoop kernel env device remaining (i + 1) time

/-- Lines 160 to 173: the body of the device loop.

`compute_points` (`tools.hpp`) and `test_benchmark` (`benchmarked-object-float.hpp`)
are the external score function and correctness checker. -/
def benchmarkDevice (kernel : Nat → List FloatBits → List FloatBits → Nat → FloatBits)
    (compute_points : Nat → Nat → Int → String) (test_benchmark : BenchmarkedObjectFloat → Bool)
    (env : DeviceEnv) (device : Device) : Exec BenchState Unit :=
  Exec.tryCatch
    (do
      printDeviceName env
      let time ← timingLoop kernel env device 4 0 0
      let bo := (← Exec.read).bo
      logCall (Call.compute_points bo.vectorSize bo.iterations time)
      let points := compute_points bo.vectorSize bo.iterations time
      logCall (Call.test_benchmark bo)
      let benchmark_ok := test_benchmark bo
      printLine (if benchmark_ok then Line.points points else Line.invalid))
    (fun _ => printLine Line.failed)

/-- The workload with the kernel's output in the first `vectorSize` floats of `vecR`. -/
def written (kernel : Nat → List FloatBits → List FloatBits → Nat → FloatBits)
    (bo : BenchmarkedObjectFloat) : BenchmarkedObjectFloat :=
  { bo with vecR := kernelOutput kernel bo.vectorSize bo.iterations bo.vecA bo.vecB ++
      bo.vecR.drop bo.vectorSize }

/-- Two workloads that differ at most in the first `vectorSize` floats of `vecR`. -/
def sameWorkload (bo bo' : BenchmarkedObjectFloat) : Prop :=
  bo.vectorSize = bo'.vectorSize ∧ bo.iterations = bo'.iterations ∧ bo.vecA = bo'.vecA ∧
  bo.vecB = bo'.vecB ∧ bo.vecR.drop bo.vectorSize = bo'.vecR.drop bo'.vectorSize

/-- The log entry of pipeline invocation `k` on the workload `bo` when it returns. -/
def okCall (env : DeviceEnv) (device : Device) (bo : BenchmarkedObjectFloat) (k : Nat) : Call :=
  Call.pipeline device bo.vectorSize bo.iterations bo.vecA bo.vecB
    (Res.ok ((timedCost (env.run k)).tdiv 1000))

/-- The log entry of a pipeline invocation on the workload `bo` that throws `e`. -/
def badCall (device : Device) (bo : BenchmarkedObjectFloat) (e : ClError) : Call :=
  Call.pipeline device bo.vectorSize bo.iterations bo.vecA bo.vecB (Res.thrown e)

/-- A logged pipeline invocation that threw. -/
def Call.raised : Call → Bool
  | Call.pipeline _ _ _ _ _ (Res.thrown _) => true
  | _ => false

/-- A logged pipeline invocation that returned. -/
def Call.returned : Call → Bool
  | Call.pipeline _ _ _ _ _ (Res.ok _) => true
  | _ => false

/-- A logged pipeline invocation. -/
def Call.isPipeline : Call → Bool
  | Call.pipeline _ _ _ _ _ _ => true
  | _ => false

/-- A logged call of the correctness checker. -/
def Call.isTest : Call → Bool
  | Call.test_benchmark _ => true
  | _ => false

/-- A logged call of the score function. -/
def Call.isScore : Call → Bool
  | Call.compute_points _ _ _ => true
  | _ => false

/-- The report of a loop iteration before its first statement. -/
def emptyReport (device : Device) : DeviceReport := ⟨device, none, [], none⟩

/-- What a call of `benchmark` leaves behind. -/
structure BenchResult where
  /-- One report per loop iteration that was started. -/
  reports : List DeviceReport
  /-- The workload afterwards. -/
  bo : BenchmarkedObjectFloat
  /-- How the call ended. -/
  result : Res Unit

/-- Lines 159 to 174: `for (const cl::Device &device : cl_devices)`, from loop
position `i` on. -/
def benchmarkFrom (kernel : Nat → List FloatBits → List FloatBits → Nat → FloatBits)
    (compute_points : Nat → Nat → Int → String) (test_benchmark : BenchmarkedObjectFloat → Bool)
    (env : Nat → DeviceEnv) : (i : Nat) → List Device → BenchmarkedObjectFloat → BenchResult
  | _, [], bo => ⟨[], bo, Res.ok ()⟩
  | i, device :: rest, bo =>
    match benchmarkDevice kernel compute_points test_benchmark (env i) device
        ⟨bo, emptyReport device⟩ with
    | (Res.ok _, s) =>
      let r := benchmarkFrom kernel compute_points test_benchmark env (i + 1) rest s.bo
      ⟨s.report :: r.reports, r.bo, r.result⟩
    | (stop, s) => ⟨[s.report], s.bo, stop⟩

/-- The fields of the class `ModuleOpencl`; `bo` is the workload set by `benchmark_prepare`. -/
structure ModuleOpencl where
  bo : BenchmarkedObjectFloat
  cl_devices : List Device

/-- Lines 153 to 177, `ModuleOpencl::benchmark`. -/
def benchmark (kernel : Nat → List FloatBits → List FloatBits → Nat → FloatBits)
    (compute_points : Nat → Nat → Int → String) (test_benchmark : BenchmarkedObjectFloat → Bool)
    (env : Nat → DeviceEnv) (m : ModuleOpencl) : BenchResult :=
  benchmarkFrom kernel compute_points test_benchmark env 0 m.cl_devices m.bo

/-! ## Discovery -/

/-- The metadata queries of lines 117 to 133, in program order. -/
inductive InfoField where
  | deviceType
  | deviceName
  | vendor
  | version
  | openclCVersion
  | driverVersion
  | maxComputeUnits
  | addressBits
  | globalMemSize
deriving DecidableEq, Repr, Fintype

/-- A device as the driver presents it during discovery. -/
structure DeviceEntry where
  device : Device
  /-- Status of each `getInfo` query on this device. -/
  infoStatus : InfoField → Int

/-- A platform as the driver presents it during discovery. -/
structure PlatformEntry where
  /-- Status of `platform.getInfo<CL_PLATFORM_NAME>()`. -/
  nameStatus : Int
  /-- Status of `platform.getDevices(CL_DEVICE_TYPE_ALL, &deviceList)`. -/
  devicesStatus : Int
  /-- The device list that call fills in. -/
  deviceList : List DeviceEntry

/-- The host as the driver presents it during one call of `printInfo`. -/
structure HostEnv where
  /-- Status of `cl::Platform::get(&platformList)`. -/
  platformsStatus : Int
  /-- The platform list that call fills in. -/
  platformList : List PlatformEntry

/-- A query through the C++ bindings whose value is only printed. -/
def query (status : Int) (what : String) : Exec ModuleOpencl Unit := do
  let _ ← (Exec.lift (errHandler status what) : Exec ModuleOpencl Int)
  pure ()

/-- A range-based `for` loop. -/
def forEach {σ α : Type} (body : α → Exec σ Unit) : List α → Exec σ Unit
  | [] => pure ()
  | x :: xs => do
    body x
    forEach body xs

/-- Lines 113 to 139: the body of the loop over a platform's devices. -/
def printDevice (d : DeviceEntry) : Exec ModuleOpencl Unit := do
  Exec.modify fun m => { m with cl_devices := m.cl_devices ++ [d.device] }
  query (d.infoStatus InfoField.deviceType) "clGetDeviceInfo"
  query (d.infoStatus InfoField.deviceName) "clGetDeviceInfo"
  query (d.infoStatus InfoField.vendor) "clGetDeviceInfo"
  query (d.infoStatus InfoField.version) "clGetDeviceInfo"
  query (d.infoStatus InfoField.openclCVersion) "clGetDeviceInfo"
  query (d.infoStatus InfoField.driverVersion) "clGetDeviceInfo"
  query (d.infoStatus InfoField.maxComputeUnits) "clGetDeviceInfo"
  query (d.infoStatus InfoField.addressBits) "clGetDeviceInfo"
  query (d.infoStatus InfoField.globalMemSize) "clGetDeviceInfo"

/-- Lines 99 to 140: the body of the loop over the platforms. -/
def printPlatform (platform : PlatformEntry) : Exec ModuleOpencl Unit := do
  query platform.nameStatus "clGetPlatformInfo"
  query platform.devicesStatus "clGetDeviceIDs"
  forEach printDevice platform.deviceList

/-- Lines 86 to 147, `ModuleOpencl::printInfo`; what it writes to `std::cout`
is left out, the catalog `cl_devices` and the errors are kept. -/
def printInfo (host : HostEnv) : Exec ModuleOpencl Unit := do
  query host.platformsStatus "clGetPlatformIDs"
  if host.platformList.length = 0 then
    pure ()
  else
    forEach printPlatform host.platformList

/-- Every metadata query on the device returns `CL_SUCCESS`. -/
def DeviceEntry.healthy (d : DeviceEntry) : Prop := ∀ f, d.infoStatus f = CL_SUCCESS

/-- The platform's queries and those of all its devices return `CL_SUCCESS`. -/
def PlatformEntry.healthy (p : PlatformEntry) : Prop :=
  p.nameStatus = CL_SUCCESS ∧ p.devicesStatus = CL_SUCCESS ∧ ∀ d ∈ p.deviceList, d.healthy

/-- No query of the discovery fails. -/
def HostEnv.healthy (host : HostEnv) : Prop :=
  host.platformsStatus = CL_SUCCESS ∧ ∀ p ∈ host.platformList, p.healthy

instance (d : DeviceEntry) : Decidable d.healthy := by
  unfold DeviceEntry.healthy
  infer_instance

instance (p : PlatformEntry) : Decidable p.healthy := by
  unfold PlatformEntry.healthy
  infer_instance

instance (host : HostEnv) : Decidable host.healthy := by
  unfold HostEnv.healthy
  infer_instance

/-- The device handles of a platform, in device order. -/
def PlatformEntry.devices (p : PlatformEntry) : List Device := p.deviceList.map DeviceEntry.device

/-- The device handles of a list of platforms: platform order, then device order. -/
def platformDevices (ps : List PlatformEntry) : List Device := (ps.map PlatformEntry.devices).flatten

/-- The device handles of the host: platform order, then device order. -/
def HostEnv.devices (host : HostEnv) : List Device := platformDevices host.platformList

/-- Code that only appends to the catalog, the same devices whatever the module holds. -/
def AppendOnly (x : Exec ModuleOpencl Unit) : Prop :=
  ∃ (r : Res Unit) (added : List Device),
    ∀ m : ModuleOpencl, x m = (r, { m with cl_devices := m.cl_devices ++ added })

/-! ## Sample inputs -/

/-- A sample kernel: work-item `gid` adds the two inputs at `gid`. -/
def sampleKernel : Nat → List FloatBits → List FloatBits → Nat → FloatBits :=
  fun _ A B gid => A.getD gid 0 + B.getD gid 0

/-- A sample score function. -/
def samplePoints : Nat → Nat → Int → String :=
  fun _ _ time => if time < 10 then "fast" else "slow"

/-- A sample workload of four elements. -/
def sampleWorkload : BenchmarkedObjectFloat := ⟨4, 1, [1, 2, 3, 4], [10, 20, 30, 40], [0, 0, 0, 0]⟩

/-- A sample correctness checker for `sampleWorkload`. -/
def sampleTest : BenchmarkedObjectFloat → Bool :=
  fun bo => decide (bo.vecR = [11, 22, 33, 44])

/-- An invocation in which every driver call succeeds and takes one microsecond. -/
def quietRun : RunEnv :=
  { status := fun _ => CL_SUCCESS, cost := fun _ => 1000, start := 0,
    uninit := fun _ _ => 77, buildLog := "" }

/-- An invocation in which the kernel does not compile (`CL_BUILD_PROGRAM_FAILURE`). -/
def brokenBuild : RunEnv :=
  { quietRun with
    status := fun st => if st = Step.buildProgram then -11 else CL_SUCCESS,
    buildLog := "kernel.cl:1:1: error" }

/-- An invocation in which the kernel launch fails (`CL_OUT_OF_RESOURCES`). -/
def brokenDispatch : RunEnv :=
  { quietRun with status := fun st => if st = Step.dispatch then -5 else CL_SUCCESS }

/-- An invocation in which only the four buffer allocations take time, a millisecond each. -/
def slowAlloc : RunEnv :=
  { quietRun with
    cost := fun st =>
      if st = Step.allocIter ∨ st = Step.allocA ∨ st = Step.allocB ∨ st = Step.allocR
      then 1000000 else 0 }

/-- A device on which everything succeeds. -/
def goodDevice : DeviceEnv := ⟨CL_SUCCESS, "GPU", fun _ => quietRun⟩

/-- A device whose third pipeline invocation fails at the kernel launch. -/
def flakyDevice : DeviceEnv :=
  ⟨CL_SUCCESS, "CPU", fun i => if i = 2 then brokenDispatch else quietRun⟩

/-- A device for which the kernel does not compile. -/
def noCompileDevice : DeviceEnv := ⟨CL_SUCCESS, "FPGA", fun _ => brokenBuild⟩

/-- A session of three devices, the middle one flaky. -/
def sampleSession : Nat → DeviceEnv := fun i => if i = 1 then flakyDevice else goodDevice

/-- A session of two devices, the kernel not compiling for the first. -/
def noCompileSession : Nat → DeviceEnv := fun i => if i = 0 then noCompileDevice else goodDevice

/-- A module with three catalog entries and the sample workload. -/
def sampleModule : ModuleOpencl := ⟨sampleWorkload, [⟨0⟩, ⟨1⟩, ⟨2⟩]⟩

/-- A module with two catalog entries and the sample workload. -/
def twoDeviceModule : ModuleOpencl := ⟨sampleWorkload, [⟨0⟩, ⟨1⟩]⟩

/-- A device whose metadata queries all succeed. -/
def goodEntry (id : Nat) : DeviceEntry := ⟨⟨id⟩, fun _ => CL_SUCCESS⟩

/-- A device whose name query fails (`CL_INVALID_VALUE`). -/
def badEntry (id : Nat) : DeviceEntry :=
  ⟨⟨id⟩, fun f => if f = InfoField.deviceName then -30 else CL_SUCCESS⟩

/-- A host with three platforms, the middle one without devices. -/
def sampleHost : HostEnv :=
  ⟨CL_SUCCESS,
   [⟨CL_SUCCESS, CL_SUCCESS, [goodEntry 0, goodEntry 1]⟩,
    ⟨CL_SUCCESS, CL_SUCCESS, []⟩,
    ⟨CL_SUCCESS, CL_SUCCESS, [goodEntry 2]⟩]⟩

/-- A host with two platforms; the second device of the first platform has a failing query. -/
def oneBadDeviceHost : HostEnv :=
  ⟨CL_SUCCESS,
   [⟨CL_SUCCESS, CL_SUCCESS, [goodEntry 0, badEntry 1, goodEntry 2]⟩,
    ⟨CL_SUCCESS, CL_SUCCESS, [goodEntry 3]⟩]⟩

/-- A module that already holds one catalog entry. -/
def staleModule : ModuleOpencl := ⟨sampleWorkload, [⟨0⟩]⟩

/-- A device whose name query in `benchmark` fails (`CL_INVALID_VALUE`) while
every driver call of its pipeline invocations would succeed. -/
def noNameDevice : DeviceEnv := ⟨-30, "GPU", fun _ => quietRun⟩

/-- A session in which the name query of every device fails. -/
def noNameSession : Nat → DeviceEnv := fun _ => noNameDevice

theorem Exec.bind_apply {σ α β : Type} (m : Exec σ α) (f : α → Exec σ β) (s : σ) :
    (m >>= f) s = Exec.andThen m f s := rfl

theorem Exec.pure_apply {σ α : Type} (a : α) (s : σ) :
    (pure a : Exec σ α) s = (Res.ok a, s) := rfl

theorem errHandler_ok {err : Int} (h : err = CL_SUCCESS) (what : String) :
    errHandler err what = Res.ok CL_SUCCESS := by
  simp [errHandler, h]

theorem errHandler_thrown {err : Int} (h : err ≠ CL_SUCCESS) (what : String) :
    errHandler err what = Res.thrown ⟨err, what⟩ := by
  simp [errHandler, h, CL_HPP_ENABLE_EXCEPTIONS]

theorem pipeline_ok (kernel : Nat → List FloatBits → List FloatBits → Nat → FloatBits)
    (env : RunEnv) (h : env.healthy) (device : Device) (n iter : Nat) (A B : List FloatBits)
    (s : PipeState) :
    make_opencl_benchmark kernel env device n iter A B s =
      (Res.ok ((timedCost env).tdiv 1000),
       { clock := s.clock + setupCost env + timedCost env,
         matR := copyFloats n (deviceOutput kernel env n iter A B) s.matR,
         trace := s.trace ++ successTrace env s.clock }) := by
  simp only [make_opencl_benchmark, Exec.bind_apply, Exec.andThen, driver, errHandler_ok (h _),
    Exec.pure_apply, now, Exec.modify, toMicroseconds, ne_eq, not_true_eq_false, if_false,
    successTrace, deviceOutput, setupCost, timedCost, List.append_assoc, List.singleton_append,
    List.cons_append, List.nil_append]
  refine Prod.ext ?_ ?_
  · simp only [Res.ok.injEq]
    congr 1
    ring
  · simp only [PipeState.mk.injEq, List.append_cancel_left_eq, List.cons.injEq, Ev.now.injEq,
      true_and, and_true]
    refine ⟨by ring, by ring, by ring⟩

theorem pipeline_thrown (kernel : Nat → List FloatBits → List FloatBits → Nat → FloatBits)
    (env : RunEnv) (h : ¬ env.healthy) (device : Device) (n iter : Nat) (A B : List FloatBits)
    (s : PipeState) :
    ∃ e, pipelineError env = some e ∧
      (make_opencl_benchmark kernel env device n iter A B s).1 = Res.thrown e ∧
      (make_opencl_benchmark kernel env device n iter A B s).2.matR = s.matR ∧
      ∀ text, Ev.print text ∉ (make_opencl_benchmark kernel env device n iter A B s).2.trace.drop
        s.trace.length := by
  by_cases h1 : env.status Step.createContext = CL_SUCCESS
  by_cases h2 : env.status Step.createQueue = CL_SUCCESS
  by_cases h3 : env.status Step.createProgram = CL_SUCCESS
  by_cases h4 : env.status Step.buildProgram = CL_SUCCESS
  by_cases h5 : env.status Step.createKernel = CL_SUCCESS
  by_cases h6 : env.status Step.allocIter = CL_SUCCESS
  by_cases h7 : env.status Step.allocA = CL_SUCCESS
  by_cases h8 : env.status Step.allocB = CL_SUCCESS
  by_cases h9 : env.status Step.allocR = CL_SUCCESS
  by_cases h10 : env.status Step.writeIter = CL_SUCCESS
  by_cases h11 : env.status Step.writeA = CL_SUCCESS
  by_cases h12 : env.status Step.writeB = CL_SUCCESS
  by_cases h13 : env.status Step.dispatch = CL_SUCCESS
  by_cases h14 : env.status Step.readR = CL_SUCCESS
  · exact absurd (fun st => by cases st <;> assumption) h
  all_goals
    simp only [make_opencl_benchmark, Exec.bind_apply, Exec.andThen, driver, errHandler_ok,
      errHandler_thrown, Exec.pure_apply, now, Exec.modify, ne_eq, not_true_eq_false, if_false,
      not_false_eq_true, pipelineError, allSteps, List.findSome?, if_true, *]
    refine ⟨_, rfl, rfl, trivial, ?_⟩
    intro text
    simp

theorem foldl_set_range (f : Nat → FloatBits) (k : Nat) (buf : List FloatBits)
    (hk : k ≤ buf.length) :
    (List.range k).foldl (fun b g => b.set g (f g)) buf = (List.range k).map f ++ buf.drop k := by
  induction k with
  | zero => simp
  | succ k ih =>
    have hlt : k < buf.length := hk
    rw [List.range_succ, List.foldl_append, ih (Nat.le_of_lt hlt)]
    simp only [List.foldl_cons, List.foldl_nil, List.map_append, List.map_cons, List.map_nil]
    rw [List.set_append_right _ _ (by simp)]
    simp only [List.length_map, List.length_range, Nat.sub_self, List.append_assoc]
    congr 1
    rw [List.drop_eq_getElem_cons hlt, List.set_cons_zero]
    rfl

theorem allocBuffer_length (env : RunEnv) (st : Step) (n : Nat) :
    (allocBuffer env st n).length = n := by
  simp [allocBuffer]

theorem copyFloats_alloc (env : RunEnv) (st : Step) (n : Nat) (src : List FloatBits) :
    copyFloats n src (allocBuffer env st n) = src.take n := by
  simp [copyFloats, List.drop_of_length_le, allocBuffer_length]

theorem deviceOutput_eq (kernel : Nat → List FloatBits → List FloatBits → Nat → FloatBits)
    (env : RunEnv) (n iter : Nat) (A B : List FloatBits) :
    deviceOutput kernel env n iter A B = kernelOutput kernel n iter A B := by
  unfold deviceOutput runKernel kernelOutput
  rw [foldl_set_range _ _ _ (by simp [allocBuffer_length]), copyFloats_alloc, copyFloats_alloc]
  simp [List.drop_of_length_le, allocBuffer_length]

theorem kernelOutput_length (kernel : Nat → List FloatBits → List FloatBits → Nat → FloatBits)
    (n iter : Nat) (A B : List FloatBits) : (kernelOutput kernel n iter A B).length = n := by
  simp [kernelOutput]

theorem copyFloats_kernelOutput (kernel : Nat → List FloatBits → List FloatBits → Nat → FloatBits)
    (n iter : Nat) (A B R : List FloatBits) :
    copyFloats n (kernelOutput kernel n iter A B) R = kernelOutput kernel n iter A B ++ R.drop n := by
  simp [copyFloats, List.take_of_length_le, kernelOutput_length]

/-! ## Lemmas: one device of the benchmark loop -/

theorem callPipeline_ok (kernel : Nat → List FloatBits → List FloatBits → Nat → FloatBits)
    (env : RunEnv) (h : env.healthy) (device : Device) (s : BenchState) :
    callPipeline kernel env device s =
      (Res.ok ((timedCost env).tdiv 1000),
       { bo := written kernel s.bo,
         report := { s.report with calls := s.report.calls ++
           [Call.pipeline device s.bo.vectorSize s.bo.iterations s.bo.vecA s.bo.vecB
             (Res.ok ((timedCost env).tdiv 1000))] } }) := by
  simp only [callPipeline, pipeline_ok kernel env h, deviceOutput_eq, copyFloats_kernelOutput,
    written]

theorem callPipeline_thrown (kernel : Nat → List FloatBits → List FloatBits → Nat → FloatBits)
    (env : RunEnv) (h : ¬ env.healthy) (device : Device) (s : BenchState) :
    ∃ e, pipelineError env = some e ∧ callPipeline kernel env device s =
      (Res.thrown e,
       { bo := s.bo,
         report := { s.report with calls := s.report.calls ++ [badCall device s.bo e] } }) := by
  obtain ⟨e, h0, h1, h2, _⟩ := pipeline_thrown kernel env h device s.bo.vectorSize
    s.bo.iterations s.bo.vecA s.bo.vecB ⟨env.start, s.bo.vecR, []⟩
  refine ⟨e, h0, ?_⟩
  simp only [callPipeline, h1, h2, badCall]

@[simp]
theorem written_vectorSize (kernel : Nat → List FloatBits → List FloatBits → Nat → FloatBits)
    (bo : BenchmarkedObjectFloat) : (written kernel bo).vectorSize = bo.vectorSize := rfl

@[simp]
theorem written_iterations (kernel : Nat → List FloatBits → List FloatBits → Nat → FloatBits)
    (bo : BenchmarkedObjectFloat) : (written kernel bo).iterations = bo.iterations := rfl

@[simp]
theorem written_vecA (kernel : Nat → List FloatBits → List FloatBits → Nat → FloatBits)
    (bo : BenchmarkedObjectFloat) : (written kernel bo).vecA = bo.vecA := rfl

@[simp]
theorem written_vecB (kernel : Nat → List FloatBits → List FloatBits → Nat → FloatBits)
    (bo : BenchmarkedObjectFloat) : (written kernel bo).vecB = bo.vecB := rfl

theorem written_vecR_drop (kernel : Nat → List FloatBits → List FloatBits → Nat → FloatBits)
    (bo : BenchmarkedObjectFloat) :
    (written kernel bo).vecR.drop bo.vectorSize = bo.vecR.drop bo.vectorSize := by
  simp [written, List.drop_append_eq_append_drop, List.drop_of_length_le, kernelOutput_length]

@[simp]
theorem written_written (kernel : Nat → List FloatBits → List FloatBits → Nat → FloatBits)
    (bo : BenchmarkedObjectFloat) : written kernel (written kernel bo) = written kernel bo := by
  have h := written_vecR_drop kernel bo
  simp only [written] at h ⊢
  simp only [h]

theorem sameWorkload_refl (bo : BenchmarkedObjectFloat) : sameWorkload bo bo :=
  ⟨rfl, rfl, rfl, rfl, rfl⟩

theorem sameWorkload_written (kernel : Nat → List FloatBits → List FloatBits → Nat → FloatBits)
    (bo : BenchmarkedObjectFloat) : sameWorkload (written kernel bo) bo :=
  ⟨rfl, rfl, rfl, rfl, written_vecR_drop kernel bo⟩

theorem written_congr (kernel : Nat → List FloatBits → List FloatBits → Nat → FloatBits)
    {a b : BenchmarkedObjectFloat} (h : sameWorkload a b) : written kernel a = written kernel b := by
  obtain ⟨p1, p2, p3, p4, p5⟩ := h
  cases a
  cases b
  simp only at p1 p2 p3 p4 p5
  subst p1 p2 p3 p4
  simp only [written, p5]

/-- The six ways one iteration of the device loop can go, each with the state it leaves. -/
theorem benchmarkDevice_shape (kernel : Nat → List FloatBits → List FloatBits → Nat → FloatBits)
    (cp : Nat → Nat → Int → String) (tb : BenchmarkedObjectFloat → Bool)
    (env : DeviceEnv) (d : Device) (bo : BenchmarkedObjectFloat) :
    (env.nameStatus ≠ CL_SUCCESS ∧
      benchmarkDevice kernel cp tb env d ⟨bo, emptyReport d⟩ =
        (Res.ok (), ⟨bo, ⟨d, none, [], some Line.failed⟩⟩)) ∨
    (env.nameStatus = CL_SUCCESS ∧ ¬ (env.run 0).healthy ∧ ∃ e, pipelineError (env.run 0) = some e ∧
      benchmarkDevice kernel cp tb env d ⟨bo, emptyReport d⟩ =
        (Res.ok (), ⟨bo, ⟨d, some env.name, [badCall d bo e], some Line.failed⟩⟩)) ∨
    (env.nameStatus = CL_SUCCESS ∧ (env.run 0).healthy ∧ ¬ (env.run 1).healthy ∧ ∃ e, pipelineError (env.run 1) = some e ∧
      benchmarkDevice kernel cp tb env d ⟨bo, emptyReport d⟩ =
        (Res.ok (), ⟨written kernel bo,
          ⟨d, some env.name, [okCall env d bo 0, badCall d bo e], some Line.failed⟩⟩)) ∨
    (env.nameStatus = CL_SUCCESS ∧ (env.run 0).healthy ∧ (env.run 1).healthy ∧
      ¬ (env.run 2).healthy ∧ ∃ e, pipelineError (env.run 2) = some e ∧
      benchmarkDevice kernel cp tb env d ⟨bo, emptyReport d⟩ =
        (Res.ok (), ⟨written kernel bo,
          ⟨d, some env.name, [okCall env d bo 0, okCall env d bo 1, badCall d bo e],
            some Line.failed⟩⟩)) ∨
    (env.nameStatus = CL_SUCCESS ∧ (env.run 0).healthy ∧ (env.run 1).healthy ∧
      (env.run 2).healthy ∧ ¬ (env.run 3).healthy ∧ ∃ e,
      pipelineError (env.run 3) = some e ∧
      benchmarkDevice kernel cp tb env d ⟨bo, emptyReport d⟩ =
        (Res.ok (), ⟨written kernel bo,
          ⟨d, some env.name,
            [okCall env d bo 0, okCall env d bo 1, okCall env d bo 2, badCall d bo e],
            some Line.failed⟩⟩)) ∨
    (env.nameStatus = CL_SUCCESS ∧ (env.run 0).healthy ∧ (env.run 1).healthy ∧
      (env.run 2).healthy ∧ (env.run 3).healthy ∧
      benchmarkDevice kernel cp tb env d ⟨bo, emptyReport d⟩ =
        (Res.ok (), ⟨written kernel bo,
          ⟨d, some env.name,
            [okCall env d bo 0, okCall env d bo 1, okCall env d bo 2, okCall env d bo 3,
             Call.compute_points bo.vectorSize bo.iterations ((timedCost (env.run 3)).tdiv 1000),
             Call.test_benchmark (written kernel bo)],
            some (if tb (written kernel bo) then
              Line.points (cp bo.vectorSize bo.iterations ((timedCost (env.run 3)).tdiv 1000))
              else Line.invalid)⟩⟩)) := by
  by_cases hn : env.nameStatus = CL_SUCCESS
  · by_cases h0 : (env.run 0).healthy
    · by_cases h1 : (env.run 1).healthy
      · by_cases h2 : (env.run 2).healthy
        · by_cases h3 : (env.run 3).healthy
          · refine Or.inr (Or.inr (Or.inr (Or.inr (Or.inr ⟨hn, h0, h1, h2, h3, ?_⟩))))
            simp only [benchmarkDevice, Exec.tryCatch, Exec.bind_apply, Exec.andThen,
              printDeviceName, Exec.lift, errHandler_ok hn, Exec.modify, timingLoop,
              callPipeline_ok kernel _ h0, callPipeline_ok kernel _ h1,
              callPipeline_ok kernel _ h2, callPipeline_ok kernel _ h3, Exec.pure_apply,
              Exec.read, logCall, printLine, emptyReport, okCall, written_written,
              written_vectorSize, written_iterations, written_vecA, written_vecB,
              List.nil_append, List.cons_append, List.append_assoc, List.singleton_append]
          · obtain ⟨e, hpe, he⟩ := callPipeline_thrown kernel _ h3 d
              ⟨written kernel bo, ⟨d, some env.name,
                [okCall env d bo 0, okCall env d bo 1, okCall env d bo 2], none⟩⟩
            refine Or.inr (Or.inr (Or.inr (Or.inr (Or.inl ⟨hn, h0, h1, h2, h3, e, hpe, ?_⟩))))
            simp only [okCall, badCall, written_vectorSize, written_iterations, written_vecA,
              written_vecB, List.cons_append, List.nil_append] at he
            simp only [benchmarkDevice, Exec.tryCatch, Exec.bind_apply, Exec.andThen,
              printDeviceName, Exec.lift, errHandler_ok hn, Exec.modify, timingLoop,
              callPipeline_ok kernel _ h0, callPipeline_ok kernel _ h1,
              callPipeline_ok kernel _ h2, he, Exec.pure_apply,
              Exec.read, logCall, printLine, emptyReport, okCall, badCall, written_written,
              written_vectorSize, written_iterations, written_vecA, written_vecB,
              List.nil_append, List.cons_append, List.append_assoc, List.singleton_append]
        · obtain ⟨e, hpe, he⟩ := callPipeline_thrown kernel _ h2 d
            ⟨written kernel bo, ⟨d, some env.name,
              [okCall env d bo 0, okCall env d bo 1], none⟩⟩
          refine Or.inr (Or.inr (Or.inr (Or.inl ⟨hn, h0, h1, h2, e, hpe, ?_⟩)))
          simp only [okCall, badCall, written_vectorSize, written_iterations, written_vecA,
            written_vecB, List.cons_append, List.nil_append] at he
          simp only [benchmarkDevice, Exec.tryCatch, Exec.bind_apply, Exec.andThen,
            printDeviceName, Exec.lift, errHandler_ok hn, Exec.modify, timingLoop,
            callPipeline_ok kernel _ h0, callPipeline_ok kernel _ h1, he, Exec.pure_apply,
            Exec.read, logCall, printLine, emptyReport, okCall, badCall, written_written,
            written_vectorSize, written_iterations, written_vecA, written_vecB,
            List.nil_append, List.cons_append, List.append_assoc, List.singleton_append]
      · obtain ⟨e, hpe, he⟩ := callPipeline_thrown kernel _ h1 d
          ⟨written kernel bo, ⟨d, some env.name, [okCall env d bo 0], none⟩⟩
        refine Or.inr (Or.inr (Or.inl ⟨hn, h0, h1, e, hpe, ?_⟩))
        simp only [okCall, badCall, written_vectorSize, written_iterations, written_vecA,
          written_vecB, List.cons_append, List.nil_append] at he
        simp only [benchmarkDevice, Exec.tryCatch, Exec.bind_apply, Exec.andThen,
          printDeviceName, Exec.lift, errHandler_ok hn, Exec.modify, timingLoop,
          callPipeline_ok kernel _ h0, he, Exec.pure_apply,
          Exec.read, logCall, printLine, emptyReport, okCall, badCall,
          written_vectorSize, written_iterations, written_vecA, written_vecB,
          List.nil_append, List.cons_append, List.append_assoc, List.singleton_append]
    · obtain ⟨e, hpe, he⟩ := callPipeline_thrown kernel _ h0 d ⟨bo, ⟨d, some env.name, [], none⟩⟩
      refine Or.inr (Or.inl ⟨hn, h0, e, hpe, ?_⟩)
      simp only [badCall, List.nil_append] at he
      simp only [benchmarkDevice, Exec.tryCatch, Exec.bind_apply, Exec.andThen,
        printDeviceName, Exec.lift, errHandler_ok hn, Exec.modify, timingLoop, he,
        Exec.pure_apply, Exec.read, logCall, printLine, emptyReport, badCall,
        List.nil_append, List.cons_append, List.append_assoc, List.singleton_append]
  · refine Or.inl ⟨hn, ?_⟩
    simp only [benchmarkDevice, Exec.tryCatch, Exec.bind_apply, Exec.andThen,
      printDeviceName, Exec.lift, errHandler_thrown hn, Exec.modify, printLine, emptyReport]

theorem benchmarkDevice_result (kernel : Nat → List FloatBits → List FloatBits → Nat → FloatBits)
    (cp : Nat → Nat → Int → String) (tb : BenchmarkedObjectFloat → Bool)
    (env : DeviceEnv) (d : Device) (bo : BenchmarkedObjectFloat) :
    (benchmarkDevice kernel cp tb env d ⟨bo, emptyReport d⟩).1 = Res.ok () := by
  rcases benchmarkDevice_shape kernel cp tb env d bo with
    ⟨_, h⟩ | ⟨_, _, _, _, h⟩ | ⟨_, _, _, _, _, h⟩ | ⟨_, _, _, _, _, _, h⟩ |
    ⟨_, _, _, _, _, _, _, h⟩ | ⟨_, _, _, _, _, h⟩ <;> rw [h]

theorem benchmarkDevice_same (kernel : Nat → List FloatBits → List FloatBits → Nat → FloatBits)
    (cp : Nat → Nat → Int → String) (tb : BenchmarkedObjectFloat → Bool)
    (env : DeviceEnv) (d : Device) (bo : BenchmarkedObjectFloat) :
    sameWorkload (benchmarkDevice kernel cp tb env d ⟨bo, emptyReport d⟩).2.bo bo := by
  rcases benchmarkDevice_shape kernel cp tb env d bo with
    ⟨_, h⟩ | ⟨_, _, _, _, h⟩ | ⟨_, _, _, _, _, h⟩ | ⟨_, _, _, _, _, _, h⟩ |
    ⟨_, _, _, _, _, _, _, h⟩ | ⟨_, _, _, _, _, h⟩ <;> rw [h] <;>
    first | exact sameWorkload_refl bo | exact sameWorkload_written kernel bo

theorem benchmarkDevice_device (kernel : Nat → List FloatBits → List FloatBits → Nat → FloatBits)
    (cp : Nat → Nat → Int → String) (tb : BenchmarkedObjectFloat → Bool)
    (env : DeviceEnv) (d : Device) (bo : BenchmarkedObjectFloat) :
    (benchmarkDevice kernel cp tb env d ⟨bo, emptyReport d⟩).2.report.device = d := by
  rcases benchmarkDevice_shape kernel cp tb env d bo with
    ⟨_, h⟩ | ⟨_, _, _, _, h⟩ | ⟨_, _, _, _, _, h⟩ | ⟨_, _, _, _, _, _, h⟩ |
    ⟨_, _, _, _, _, _, _, h⟩ | ⟨_, _, _, _, _, h⟩ <;> rw [h]

theorem benchmarkDevice_congr (kernel : Nat → List FloatBits → List FloatBits → Nat → FloatBits)
    (cp : Nat → Nat → Int → String) (tb : BenchmarkedObjectFloat → Bool)
    (env : DeviceEnv) (d : Device) {bo bo' : BenchmarkedObjectFloat} (hs : sameWorkload bo bo') :
    (benchmarkDevice kernel cp tb env d ⟨bo, emptyReport d⟩).2.report =
      (benchmarkDevice kernel cp tb env d ⟨bo', emptyReport d⟩).2.report := by
  have hw := written_congr kernel hs
  obtain ⟨p1, p2, p3, p4, _⟩ := hs
  rcases benchmarkDevice_shape kernel cp tb env d bo with
    ⟨a1, h⟩ | ⟨a1, a2, e, a3, h⟩ | ⟨a1, a2, a3, e, a4, h⟩ | ⟨a1, a2, a3, a4, e, a5, h⟩ |
    ⟨a1, a2, a3, a4, a5, e, a6, h⟩ | ⟨a1, a2, a3, a4, a5, h⟩ <;>
  rcases benchmarkDevice_shape kernel cp tb env d bo' with
    ⟨b1, h'⟩ | ⟨b1, b2, e', b3, h'⟩ | ⟨b1, b2, b3, e', b4, h'⟩ | ⟨b1, b2, b3, b4, e', b5, h'⟩ |
    ⟨b1, b2, b3, b4, b5, e', b6, h'⟩ | ⟨b1, b2, b3, b4, b5, h'⟩ <;>
  first
    | exact absurd a1 b1 | exact absurd b1 a1 | exact absurd a2 b2 | exact absurd b2 a2
    | exact absurd a3 b3 | exact absurd b3 a3 | exact absurd a4 b4 | exact absurd b4 a4
    | exact absurd a5 b5 | exact absurd b5 a5
    | (rw [h, h'] <;> simp_all [okCall, badCall])

theorem benchmarkFrom_length (kernel : Nat → List FloatBits → List FloatBits → Nat → FloatBits)
    (cp : Nat → Nat → Int → String) (tb : BenchmarkedObjectFloat → Bool)
    (env : Nat → DeviceEnv) (cat : List Device) (i : Nat) (bo : BenchmarkedObjectFloat) :
    (benchmarkFrom kernel cp tb env i cat bo).reports.length = cat.length ∧
    (benchmarkFrom kernel cp tb env i cat bo).result = Res.ok () := by
  induction cat generalizing i bo with
  | nil => exact ⟨rfl, rfl⟩
  | cons d rest ih =>
    have hr := benchmarkDevice_result kernel cp tb (env i) d bo
    rcases hb : benchmarkDevice kernel cp tb (env i) d ⟨bo, emptyReport d⟩ with ⟨r, s⟩
    rw [hb] at hr
    simp only at hr
    subst hr
    simp only [benchmarkFrom, hb, List.length_cons, (ih (i + 1) s.bo).1, (ih (i + 1) s.bo).2,
      and_self]

theorem benchmarkFrom_getElem? (kernel : Nat → List FloatBits → List FloatBits → Nat → FloatBits)
    (cp : Nat → Nat → Int → String) (tb : BenchmarkedObjectFloat → Bool)
    (env : Nat → DeviceEnv) (cat : List Device) (i : Nat) (bo : BenchmarkedObjectFloat)
    (j : Nat) (hj : j < cat.length) :
    (benchmarkFrom kernel cp tb env i cat bo).reports[j]? =
      some (benchmarkDevice kernel cp tb (env (i + j)) cat[j] ⟨bo, emptyReport cat[j]⟩).2.report := by
  induction cat generalizing i bo j with
  | nil => simp at hj
  | cons d rest ih =>
    have hr := benchmarkDevice_result kernel cp tb (env i) d bo
    have hsame := benchmarkDevice_same kernel cp tb (env i) d bo
    rcases hb : benchmarkDevice kernel cp tb (env i) d ⟨bo, emptyReport d⟩ with ⟨r, s⟩
    rw [hb] at hr hsame
    simp only at hr hsame
    subst hr
    cases j with
    | zero => simp [benchmarkFrom, hb]
    | succ j =>
      have hj' : j < rest.length := by simpa using hj
      simp only [benchmarkFrom, hb, List.getElem?_cons_succ, List.getElem_cons_succ]
      rw [ih (i + 1) s.bo j hj', benchmarkDevice_congr kernel cp tb _ _ hsame,
        show i + 1 + j = i + (j + 1) by omega]

/-! ## Lemmas: discovery -/

theorem query_ok {status : Int} (h : status = CL_SUCCESS) (what : String) (m : ModuleOpencl) :
    query status what m = (Res.ok (), m) := by
  simp only [query, Exec.bind_apply, Exec.andThen, Exec.lift, errHandler_ok h, Exec.pure_apply]

theorem query_thrown {status : Int} (h : status ≠ CL_SUCCESS) (what : String) (m : ModuleOpencl) :
    query status what m = (Res.thrown ⟨status, what⟩, m) := by
  simp only [query, Exec.bind_apply, Exec.andThen, Exec.lift, errHandler_thrown h]

theorem appendOnly_query (status : Int) (what : String) : AppendOnly (query status what) := by
  by_cases h : status = CL_SUCCESS
  · exact ⟨Res.ok (), [], fun m => by simp [query_ok h]⟩
  · exact ⟨Res.thrown ⟨status, what⟩, [], fun m => by simp [query_thrown h]⟩

theorem appendOnly_pure : AppendOnly (pure ()) :=
  ⟨Res.ok (), [], fun m => by simp [Exec.pure_apply]⟩

theorem appendOnly_bind {x y : Exec ModuleOpencl Unit} (hx : AppendOnly x) (hy : AppendOnly y) :
    AppendOnly (x >>= fun _ => y) := by
  obtain ⟨r, a, hx⟩ := hx
  obtain ⟨r', a', hy⟩ := hy
  cases r with
  | ok u =>
    exact ⟨r', a ++ a', fun m => by simp [Exec.bind_apply, Exec.andThen, hx, hy]⟩
  | thrown e =>
    exact ⟨Res.thrown e, a, fun m => by simp [Exec.bind_apply, Exec.andThen, hx]⟩
  | exited c =>
    exact ⟨Res.exited c, a, fun m => by simp [Exec.bind_apply, Exec.andThen, hx]⟩

theorem appendOnly_forEach {α : Type} (body : α → Exec ModuleOpencl Unit)
    (hb : ∀ a, AppendOnly (body a)) (xs : List α) : AppendOnly (forEach body xs) := by
  induction xs with
  | nil => exact appendOnly_pure
  | cons x xs ih => exact appendOnly_bind (hb x) ih

theorem appendOnly_push (d : Device) :
    AppendOnly (Exec.modify fun m => { m with cl_devices := m.cl_devices ++ [d] }) :=
  ⟨Res.ok (), [d], fun _ => rfl⟩

theorem appendOnly_printDevice (d : DeviceEntry) : AppendOnly (printDevice d) := by
  unfold printDevice
  repeat' first
    | exact appendOnly_query _ _
    | exact appendOnly_push _
    | apply appendOnly_bind

theorem appendOnly_printPlatform (p : PlatformEntry) : AppendOnly (printPlatform p) := by
  unfold printPlatform
  repeat' first
    | exact appendOnly_query _ _
    | exact appendOnly_forEach _ appendOnly_printDevice _
    | apply appendOnly_bind

theorem appendOnly_printInfo (host : HostEnv) : AppendOnly (printInfo host) := by
  unfold printInfo
  refine appendOnly_bind (appendOnly_query _ _) ?_
  split
  · exact appendOnly_pure
  · exact appendOnly_forEach _ appendOnly_printPlatform _

theorem printDevice_ok (d : DeviceEntry) (h : d.healthy) (m : ModuleOpencl) :
    printDevice d m = (Res.ok (), { m with cl_devices := m.cl_devices ++ [d.device] }) := by
  simp only [printDevice, Exec.bind_apply, Exec.andThen, Exec.modify, query_ok (h _)]

theorem forEach_printDevice_ok (ds : List DeviceEntry) (h : ∀ d ∈ ds, d.healthy)
    (m : ModuleOpencl) :
    forEach printDevice ds m =
      (Res.ok (), { m with cl_devices := m.cl_devices ++ ds.map DeviceEntry.device }) := by
  induction ds generalizing m with
  | nil => simp [forEach, Exec.pure_apply]
  | cons d ds ih =>
    simp only [forEach, Exec.bind_apply, Exec.andThen,
      printDevice_ok d (h d (List.mem_cons_self _ _)),
      ih (fun x hx => h x (List.mem_cons_of_mem _ hx)), List.map_cons, List.append_assoc,
      List.singleton_append]

theorem printPlatform_ok (p : PlatformEntry) (h : p.healthy) (m : ModuleOpencl) :
    printPlatform p m = (Res.ok (), { m with cl_devices := m.cl_devices ++ p.devices }) := by
  simp only [printPlatform, Exec.bind_apply, Exec.andThen, query_ok h.1, query_ok h.2.1,
    forEach_printDevice_ok _ h.2.2, PlatformEntry.devices]

theorem forEach_printPlatform_ok (ps : List PlatformEntry) (h : ∀ p ∈ ps, p.healthy)
    (m : ModuleOpencl) :
    forEach printPlatform ps m =
      (Res.ok (), { m with cl_devices := m.cl_devices ++ platformDevices ps }) := by
  induction ps generalizing m with
  | nil => simp [forEach, Exec.pure_apply, platformDevices]
  | cons p ps ih =>
    simp only [forEach, Exec.bind_apply, Exec.andThen,
      printPlatform_ok p (h p (List.mem_cons_self _ _)),
      ih (fun x hx => h x (List.mem_cons_of_mem _ hx)), platformDevices, List.map_cons,
      List.flatten_cons, List.append_assoc]

theorem printInfo_ok (host : HostEnv) (h : host.healthy) (m : ModuleOpencl) :
    printInfo host m = (Res.ok (), { m with cl_devices := m.cl_devices ++ host.devices }) := by
  simp only [printInfo, Exec.bind_apply, Exec.andThen, query_ok h.1]
  split
  · rename_i h0
    have : host.platformList = [] := List.length_eq_zero.mp h0
    simp [Exec.pure_apply, HostEnv.devices, platformDevices, this]
  · simp only [forEach_printPlatform_ok _ h.2, HostEnv.devices]

/-! ## Lemmas: what a device report says -/

theorem exists_unhealthy_iff (env : DeviceEnv) :
    (∃ k < 4, ¬ (env.run k).healthy) ↔
      ¬ ((env.run 0).healthy ∧ (env.run 1).healthy ∧ (env.run 2).healthy ∧ (env.run 3).healthy) := by
  constructor
  · rintro ⟨k, hk, hbad⟩ ⟨h0, h1, h2, h3⟩
    interval_cases k
    · exact hbad h0
    · exact hbad h1
    · exact hbad h2
    · exact hbad h3
  · intro h
    by_contra hall
    apply h
    refine ⟨?_, ?_, ?_, ?_⟩ <;> by_contra hk <;> exact hall ⟨_, by decide, hk⟩

theorem forall_healthy_iff (env : DeviceEnv) :
    (∀ k < 4, (env.run k).healthy) ↔
      ((env.run 0).healthy ∧ (env.run 1).healthy ∧ (env.run 2).healthy ∧ (env.run 3).healthy) := by
  constructor
  · intro h
    exact ⟨h 0 (by decide), h 1 (by decide), h 2 (by decide), h 3 (by decide)⟩
  · rintro ⟨h0, h1, h2, h3⟩ k hk
    interval_cases k <;> assumption

theorem report_raised_iff (kernel : Nat → List FloatBits → List FloatBits → Nat → FloatBits)
    (cp : Nat → Nat → Int → String) (tb : BenchmarkedObjectFloat → Bool)
    (env : DeviceEnv) (d : Device) (bo : BenchmarkedObjectFloat) :
    (∃ c ∈ (benchmarkDevice kernel cp tb env d ⟨bo, emptyReport d⟩).2.report.calls,
        c.raised = true) ↔
      (env.nameStatus = CL_SUCCESS ∧ ∃ k < 4, ¬ (env.run k).healthy) := by
  rw [exists_unhealthy_iff]
  rcases benchmarkDevice_shape kernel cp tb env d bo with
    ⟨a1, h⟩ | ⟨a1, a2, e, a3, h⟩ | ⟨a1, a2, a3, e, a4, h⟩ | ⟨a1, a2, a3, a4, e, a5, h⟩ |
    ⟨a1, a2, a3, a4, a5, e, a6, h⟩ | ⟨a1, a2, a3, a4, a5, h⟩ <;>
  rw [h] <;> simp [okCall, badCall, Call.raised, *]

theorem report_line (kernel : Nat → List FloatBits → List FloatBits → Nat → FloatBits)
    (cp : Nat → Nat → Int → String) (tb : BenchmarkedObjectFloat → Bool)
    (env : DeviceEnv) (d : Device) (bo : BenchmarkedObjectFloat) :
    (benchmarkDevice kernel cp tb env d ⟨bo, emptyReport d⟩).2.report.line ≠ none ∧
    ((benchmarkDevice kernel cp tb env d ⟨bo, emptyReport d⟩).2.report.line = some Line.failed ↔
      (env.nameStatus ≠ CL_SUCCESS ∨ ∃ k < 4, ¬ (env.run k).healthy)) := by
  rw [exists_unhealthy_iff]
  rcases benchmarkDevice_shape kernel cp tb env d bo with
    ⟨a1, h⟩ | ⟨a1, a2, e, a3, h⟩ | ⟨a1, a2, a3, e, a4, h⟩ | ⟨a1, a2, a3, a4, e, a5, h⟩ |
    ⟨a1, a2, a3, a4, a5, e, a6, h⟩ | ⟨a1, a2, a3, a4, a5, h⟩ <;>
  rw [h] <;> simp [*]
  split <;> simp

/-! ## The claims -/

/-- C1: for every catalog and every behaviour of the driver, `benchmark` returns
and leaves exactly one report per catalog entry; report `i` belongs to catalog
entry `i` and carries an outcome line; a pipeline invocation is logged as raised
for entry `i` exactly when its name query succeeds and one of its four
invocations meets a failing driver call; with the name query succeeding, the
line is "Failed" exactly when a logged pipeline invocation raised (in general,
exactly when the name query or a logged pipeline invocation raised); and
changing the driver's behaviour at position `N` only leaves the report of every
other position as it was. -/
theorem benchmark_fault_isolation
    (kernel : Nat → List FloatBits → List FloatBits → Nat → FloatBits)
    (cp : Nat → Nat → Int → String) (tb : BenchmarkedObjectFloat → Bool)
    (env : Nat → DeviceEnv) (m : ModuleOpencl) :
    (benchmark kernel cp tb env m).reports.length = m.cl_devices.length ∧
    (benchmark kernel cp tb env m).result = Res.ok () ∧
    (∀ (i : Nat) (hi : i < m.cl_devices.length),
      ∃ rep, (benchmark kernel cp tb env m).reports[i]? = some rep ∧
        rep.device = m.cl_devices[i] ∧ rep.line ≠ none ∧
        ((∃ c ∈ rep.calls, c.raised = true) ↔
          ((env i).nameStatus = CL_SUCCESS ∧ ∃ k < 4, ¬ ((env i).run k).healthy)) ∧
        ((env i).nameStatus = CL_SUCCESS →
          (rep.line = some Line.failed ↔ ∃ c ∈ rep.calls, c.raised = true)) ∧
        (rep.line = some Line.failed ↔
          ((env i).nameStatus ≠ CL_SUCCESS ∨ ∃ c ∈ rep.calls, c.raised = true))) ∧
    (∀ (env' : Nat → DeviceEnv) (N : Nat), (∀ j, j ≠ N → env' j = env j) →
      ∀ j, j ≠ N →
        (benchmark kernel cp tb env' m).reports[j]? =
          (benchmark kernel cp tb env m).reports[j]?) := by
  refine ⟨(benchmarkFrom_length kernel cp tb env m.cl_devices 0 m.bo).1,
    (benchmarkFrom_length kernel cp tb env m.cl_devices 0 m.bo).2, ?_, ?_⟩
  · intro i hi
    refine ⟨_, benchmarkFrom_getElem? kernel cp tb env m.cl_devices 0 m.bo i hi,
      ?_, ?_, ?_, ?_, ?_⟩
    · exact benchmarkDevice_device kernel cp tb _ _ _
    · exact (report_line kernel cp tb _ _ _).1
    · rw [Nat.zero_add]
      exact report_raised_iff kernel cp tb _ _ _
    · intro hname
      rw [Nat.zero_add] at *
      rw [(report_line kernel cp tb _ _ _).2, report_raised_iff]
      simp [hname]
    · rw [Nat.zero_add]
      rw [(report_line kernel cp tb _ _ _).2, report_raised_iff]
      by_cases hname : (env i).nameStatus = CL_SUCCESS <;> simp [hname]
  · intro env' N hagree j hj
    by_cases hlt : j < m.cl_devices.length
    · simp only [benchmark]
      rw [benchmarkFrom_getElem? kernel cp tb env' m.cl_devices 0 m.bo j hlt,
        benchmarkFrom_getElem? kernel cp tb env m.cl_devices 0 m.bo j hlt, Nat.zero_add,
        hagree j hj]
    · have h1 := (benchmarkFrom_length kernel cp tb env' m.cl_devices 0 m.bo).1
      have h2 := (benchmarkFrom_length kernel cp tb env m.cl_devices 0 m.bo).1
      simp only [benchmark]
      rw [List.getElem?_eq_none (by omega), List.getElem?_eq_none (by omega)]

/-- Witness for C1: in the sample session of three devices, the middle one
failing at its third kernel launch, there are three reports and the second,
for catalog entry 1, ends in "Failed". -/
theorem benchmark_fault_isolation_witness :
    (benchmark sampleKernel samplePoints sampleTest sampleSession sampleModule).reports.length = 3 ∧
    ∃ rep, (benchmark sampleKernel samplePoints sampleTest sampleSession sampleModule).reports[1]? =
        some rep ∧ rep.device = ⟨1⟩ ∧ rep.line = some Line.failed := by
  have h := benchmark_fault_isolation sampleKernel samplePoints sampleTest sampleSession sampleModule
  refine ⟨h.1, ?_⟩
  obtain ⟨rep, h1, h2, _, h4, h5, _⟩ := h.2.2.1 1 (by decide)
  refine ⟨rep, h1, h2, ?_⟩
  exact (h5 rfl).2 (h4.2 ⟨rfl, 2, by decide, by decide⟩)

/-- C2 as stated fails: on a device whose name query on line 161 throws, no
pipeline invocation raises (each of the four would meet successful driver calls
only, and none is made), yet `benchmark` invokes `make_opencl_benchmark` zero
times, never calls `compute_points` and reports "Failed". -/
theorem benchmark_four_runs_counterexample :
    ((noNameSession 0).run 0).healthy ∧ ((noNameSession 0).run 1).healthy ∧
    ((noNameSession 0).run 2).healthy ∧ ((noNameSession 0).run 3).healthy ∧
    (benchmark sampleKernel samplePoints sampleTest noNameSession staleModule).reports =
      [⟨⟨0⟩, none, [], some Line.failed⟩] ∧
    (benchmark sampleKernel samplePoints sampleTest noNameSession staleModule).result =
      Res.ok () := by
  refine ⟨by decide, by decide, by decide, by decide, by decide, by decide⟩

/-- C2 as amended: for a catalog entry whose name query succeeds and whose four pipeline
invocations meet no failing driver call, the report logs exactly four calls of
`make_opencl_benchmark` one after the other, all with the same device and the
same workload arguments, then one call of `compute_points` with the element
count, the iteration count and the elapsed microseconds that the fourth
invocation returns, then the correctness check; the times of the first three
invocations go nowhere else. -/
theorem benchmark_four_runs
    (kernel : Nat → List FloatBits → List FloatBits → Nat → FloatBits)
    (cp : Nat → Nat → Int → String) (tb : BenchmarkedObjectFloat → Bool)
    (env : Nat → DeviceEnv) (m : ModuleOpencl) (i : Nat) (hi : i < m.cl_devices.length)
    (hname : (env i).nameStatus = CL_SUCCESS)
    (hruns : ∀ k < 4, ((env i).run k).healthy) :
    ∃ rep t0 t1 t2 t3,
      (benchmark kernel cp tb env m).reports[i]? = some rep ∧
      (∀ s, (make_opencl_benchmark kernel ((env i).run 0) m.cl_devices[i] m.bo.vectorSize
        m.bo.iterations m.bo.vecA m.bo.vecB s).1 = Res.ok t0) ∧
      (∀ s, (make_opencl_benchmark kernel ((env i).run 1) m.cl_devices[i] m.bo.vectorSize
        m.bo.iterations m.bo.vecA m.bo.vecB s).1 = Res.ok t1) ∧
      (∀ s, (make_opencl_benchmark kernel ((env i).run 2) m.cl_devices[i] m.bo.vectorSize
        m.bo.iterations m.bo.vecA m.bo.vecB s).1 = Res.ok t2) ∧
      (∀ s, (make_opencl_benchmark kernel ((env i).run 3) m.cl_devices[i] m.bo.vectorSize
        m.bo.iterations m.bo.vecA m.bo.vecB s).1 = Res.ok t3) ∧
      rep.calls =
        [Call.pipeline m.cl_devices[i] m.bo.vectorSize m.bo.iterations m.bo.vecA m.bo.vecB
           (Res.ok t0),
         Call.pipeline m.cl_devices[i] m.bo.vectorSize m.bo.iterations m.bo.vecA m.bo.vecB
           (Res.ok t1),
         Call.pipeline m.cl_devices[i] m.bo.vectorSize m.bo.iterations m.bo.vecA m.bo.vecB
           (Res.ok t2),
         Call.pipeline m.cl_devices[i] m.bo.vectorSize m.bo.iterations m.bo.vecA m.bo.vecB
           (Res.ok t3),
         Call.compute_points m.bo.vectorSize m.bo.iterations t3,
         Call.test_benchmark (written kernel m.bo)] ∧
      rep.line = some (if tb (written kernel m.bo) then
        Line.points (cp m.bo.vectorSize m.bo.iterations t3) else Line.invalid) := by
  obtain ⟨h0, h1, h2, h3⟩ := (forall_healthy_iff (env i)).mp hruns
  refine ⟨_, (timedCost ((env i).run 0)).tdiv 1000, (timedCost ((env i).run 1)).tdiv 1000,
    (timedCost ((env i).run 2)).tdiv 1000, (timedCost ((env i).run 3)).tdiv 1000,
    benchmarkFrom_getElem? kernel cp tb env m.cl_devices 0 m.bo i hi,
    fun s => by rw [pipeline_ok kernel _ h0], fun s => by rw [pipeline_ok kernel _ h1],
    fun s => by rw [pipeline_ok kernel _ h2], fun s => by rw [pipeline_ok kernel _ h3], ?_⟩
  rw [Nat.zero_add]
  rcases benchmarkDevice_shape kernel cp tb (env i) m.cl_devices[i] m.bo with
    ⟨a1, _⟩ | ⟨_, a2, _⟩ | ⟨_, _, a3, _⟩ | ⟨_, _, _, a4, _⟩ |
    ⟨_, _, _, _, a5, _⟩ | ⟨_, _, _, _, _, h⟩
  · exact absurd hname a1
  · exact absurd h0 a2
  · exact absurd h1 a3
  · exact absurd h2 a4
  · exact absurd h3 a5
  · rw [h]
    exact ⟨rfl, rfl⟩

/-- Witness for C2: the first device of the sample session. -/
theorem benchmark_four_runs_witness :
    ∃ rep, (benchmark sampleKernel samplePoints sampleTest sampleSession sampleModule).reports[0]? =
        some rep ∧
      rep.calls =
        [Call.pipeline ⟨0⟩ 4 1 [1, 2, 3, 4] [10, 20, 30, 40] (Res.ok 9),
         Call.pipeline ⟨0⟩ 4 1 [1, 2, 3, 4] [10, 20, 30, 40] (Res.ok 9),
         Call.pipeline ⟨0⟩ 4 1 [1, 2, 3, 4] [10, 20, 30, 40] (Res.ok 9),
         Call.pipeline ⟨0⟩ 4 1 [1, 2, 3, 4] [10, 20, 30, 40] (Res.ok 9),
         Call.compute_points 4 1 9,
         Call.test_benchmark ⟨4, 1, [1, 2, 3, 4], [10, 20, 30, 40], [11, 22, 33, 44]⟩] := by
  obtain ⟨rep, t0, t1, t2, t3, h, r0, r1, r2, r3, hc, _⟩ :=
    benchmark_four_runs sampleKernel samplePoints sampleTest sampleSession sampleModule 0
      (by decide) rfl (fun k _ => by
        show quietRun.healthy
        decide)
  have d : (make_opencl_benchmark sampleKernel quietRun ⟨0⟩ 4 1 [1, 2, 3, 4] [10, 20, 30, 40]
      ⟨0, [], []⟩).1 = Res.ok 9 := by decide
  have e0 : t0 = 9 := Res.ok.inj ((r0 _).symm.trans d)
  have e1 : t1 = 9 := Res.ok.inj ((r1 _).symm.trans d)
  have e2 : t2 = 9 := Res.ok.inj ((r2 _).symm.trans d)
  have e3 : t3 = 9 := Res.ok.inj ((r3 _).symm.trans d)
  have w : written sampleKernel sampleModule.bo =
      ⟨4, 1, [1, 2, 3, 4], [10, 20, 30, 40], [11, 22, 33, 44]⟩ := by decide
  subst e0 e1 e2 e3
  rw [w] at hc
  exact ⟨rep, h, hc⟩

/-- C4: in the report of every catalog entry, if a logged pipeline invocation
raised then the line is "Failed", neither the correctness checker nor the score
function was called, the raising invocation is the last call of the report (the
remaining invocations are skipped) and at most four calls were made;
conversely, if the correctness checker was called then exactly four pipeline
invocations are logged and each of them returned; and a report whose line is
"Failed" holds no call of the correctness checker. -/
theorem benchmark_failed_skips_check
    (kernel : Nat → List FloatBits → List FloatBits → Nat → FloatBits)
    (cp : Nat → Nat → Int → String) (tb : BenchmarkedObjectFloat → Bool)
    (env : Nat → DeviceEnv) (m : ModuleOpencl) (i : Nat) (hi : i < m.cl_devices.length) :
    ∃ rep, (benchmark kernel cp tb env m).reports[i]? = some rep ∧
      ((∃ c ∈ rep.calls, c.raised = true) →
        rep.line = some Line.failed ∧
        (∀ c ∈ rep.calls, c.isTest = false ∧ c.isScore = false) ∧
        (∃ c, rep.calls.getLast? = some c ∧ c.raised = true) ∧
        rep.calls.length ≤ 4) ∧
      ((∃ c ∈ rep.calls, c.isTest = true) →
        (rep.calls.filter Call.isPipeline).length = 4 ∧
        (∀ c ∈ rep.calls, c.isPipeline = true → c.returned = true) ∧
        (∀ c ∈ rep.calls, c.raised = false) ∧
        rep.line ≠ some Line.failed) ∧
      (rep.line = some Line.failed → ∀ c ∈ rep.calls, c.isTest = false) := by
  refine ⟨_, benchmarkFrom_getElem? kernel cp tb env m.cl_devices 0 m.bo i hi, ?_⟩
  rcases benchmarkDevice_shape kernel cp tb (env (0 + i)) m.cl_devices[i] m.bo with
    ⟨a1, h⟩ | ⟨a1, a2, e, a3, h⟩ | ⟨a1, a2, a3, e, a4, h⟩ | ⟨a1, a2, a3, a4, e, a5, h⟩ |
    ⟨a1, a2, a3, a4, a5, e, a6, h⟩ | ⟨a1, a2, a3, a4, a5, h⟩ <;>
  rw [h] <;>
  simp [okCall, badCall, Call.raised, Call.isTest, Call.isScore, Call.isPipeline,
    Call.returned, List.filter]
  split <;> simp

/-- Witness for C4: the flaky middle device of the sample session has a raising
invocation, so its report ends in "Failed" and holds at most four calls. -/
theorem benchmark_failed_skips_check_witness :
    ∃ rep, (benchmark sampleKernel samplePoints sampleTest sampleSession sampleModule).reports[1]? =
        some rep ∧ rep.line = some Line.failed ∧ rep.calls.length ≤ 4 := by
  obtain ⟨rep, h, h1, _, _⟩ :=
    benchmark_failed_skips_check sampleKernel samplePoints sampleTest sampleSession sampleModule 1
      (by decide)
  have hg := benchmarkFrom_getElem? sampleKernel samplePoints sampleTest sampleSession
    sampleModule.cl_devices 0 sampleModule.bo 1 (by decide)
  have hr := Option.some.inj (hg.symm.trans h)
  have hraised : ∃ c ∈ rep.calls, c.raised = true := by
    rw [← hr]
    exact (report_raised_iff sampleKernel samplePoints sampleTest _ _ _).2
      ⟨rfl, 2, by decide, by decide⟩
  exact ⟨rep, h, (h1 hraised).1, (h1 hraised).2.2.2⟩

/-- C3 (the code departs from the claim): when the kernel does not compile for
the first of two devices, `make_opencl_benchmark` throws the `cl::Error` of
`clBuildProgram` after four driver calls, prints no build log and does not
exit; `benchmark` catches it, reports "Failed" for that device after a single
pipeline invocation, goes on to time the second device and returns. -/
theorem build_failure_is_absorbed :
    (make_opencl_benchmark sampleKernel brokenBuild ⟨0⟩ 4 1 [1, 2, 3, 4] [10, 20, 30, 40]
        ⟨0, [0, 0, 0, 0], []⟩) =
      (Res.thrown ⟨-11, "clBuildProgram"⟩,
       ⟨4000, [0, 0, 0, 0],
        [Ev.call Step.createContext, Ev.call Step.createQueue, Ev.call Step.createProgram,
         Ev.call Step.buildProgram]⟩) ∧
    (benchmark sampleKernel samplePoints sampleTest noCompileSession twoDeviceModule).reports[0]? =
      some ⟨⟨0⟩, some "FPGA",
        [Call.pipeline ⟨0⟩ 4 1 [1, 2, 3, 4] [10, 20, 30, 40]
          (Res.thrown ⟨-11, "clBuildProgram"⟩)],
        some Line.failed⟩ ∧
    (benchmark sampleKernel samplePoints sampleTest noCompileSession twoDeviceModule).reports[1]? =
      some ⟨⟨1⟩, some "GPU",
        [Call.pipeline ⟨1⟩ 4 1 [1, 2, 3, 4] [10, 20, 30, 40] (Res.ok 9),
         Call.pipeline ⟨1⟩ 4 1 [1, 2, 3, 4] [10, 20, 30, 40] (Res.ok 9),
         Call.pipeline ⟨1⟩ 4 1 [1, 2, 3, 4] [10, 20, 30, 40] (Res.ok 9),
         Call.pipeline ⟨1⟩ 4 1 [1, 2, 3, 4] [10, 20, 30, 40] (Res.ok 9),
         Call.compute_points 4 1 9,
         Call.test_benchmark ⟨4, 1, [1, 2, 3, 4], [10, 20, 30, 40], [11, 22, 33, 44]⟩],
        some (Line.points "fast")⟩ ∧
    (benchmark sampleKernel samplePoints sampleTest noCompileSession twoDeviceModule).result =
      Res.ok () := by
  refine ⟨by decide, ?_, ?_, ?_⟩
  · rw [benchmark, benchmarkFrom_getElem? _ _ _ _ _ _ _ 0 (by decide)]
    decide
  · rw [benchmark, benchmarkFrom_getElem? _ _ _ _ _ _ _ 1 (by decide)]
    decide
  · exact (benchmarkFrom_length _ _ _ _ _ _ _).2

/-- C5 as stated fails: with allocations of one millisecond each and every other
call taking no time, the pipeline returns 4000 microseconds, not the 0
microseconds that pass from the first host-to-device write to the end of the
read, and its trace is not the one of the specification: the first clock
reading comes right before the first buffer allocation. -/
theorem timed_interval_counterexample :
    (make_opencl_benchmark sampleKernel slowAlloc ⟨0⟩ 4 1 [1, 2, 3, 4] [10, 20, 30, 40]
        ⟨0, [0, 0, 0, 0], []⟩).1 = Res.ok 4000 ∧
    (transferCost slowAlloc).tdiv 1000 = 0 ∧
    (make_opencl_benchmark sampleKernel slowAlloc ⟨0⟩ 4 1 [1, 2, 3, 4] [10, 20, 30, 40]
        ⟨0, [0, 0, 0, 0], []⟩).2.trace ≠ specTrace slowAlloc 0 ∧
    (make_opencl_benchmark sampleKernel slowAlloc ⟨0⟩ 4 1 [1, 2, 3, 4] [10, 20, 30, 40]
        ⟨0, [0, 0, 0, 0], []⟩).2.trace =
      [Ev.call Step.createContext, Ev.call Step.createQueue, Ev.call Step.createProgram,
       Ev.call Step.buildProgram, Ev.call Step.createKernel,
       Ev.now 0,
       Ev.call Step.allocIter, Ev.call Step.allocA, Ev.call Step.allocB, Ev.call Step.allocR,
       Ev.call Step.writeIter, Ev.call Step.writeA, Ev.call Step.writeB,
       Ev.call Step.dispatch, Ev.call Step.readR,
       Ev.now 4000000] := by
  refine ⟨by decide, by decide, by decide, by decide⟩

/-- C5 as amended: in every pipeline run whose driver calls all succeed, the
steps occur in the order context, queue, program, build, kernel, first clock
reading, allocation of the four device buffers, three host-to-device writes,
kernel launch, device-to-host read, second clock reading; the returned elapsed
microseconds are the difference of the two readings, and that interval is the
time of the four allocations, the three writes, the launch and the read. -/
theorem timed_interval_includes_allocation
    (kernel : Nat → List FloatBits → List FloatBits → Nat → FloatBits)
    (env : RunEnv) (h : env.healthy) (device : Device) (n iter : Nat) (A B : List FloatBits)
    (s : PipeState) :
    ∃ t1 t2 : Int,
      (make_opencl_benchmark kernel env device n iter A B s).2.trace = s.trace ++
        [Ev.call Step.createContext, Ev.call Step.createQueue, Ev.call Step.createProgram,
         Ev.call Step.buildProgram, Ev.call Step.createKernel,
         Ev.now t1,
         Ev.call Step.allocIter, Ev.call Step.allocA, Ev.call Step.allocB, Ev.call Step.allocR,
         Ev.call Step.writeIter, Ev.call Step.writeA, Ev.call Step.writeB,
         Ev.call Step.dispatch, Ev.call Step.readR,
         Ev.now t2] ∧
      (make_opencl_benchmark kernel env device n iter A B s).1 = Res.ok (toMicroseconds t2 t1) ∧
      t2 - t1 =
        env.cost Step.allocIter + env.cost Step.allocA + env.cost Step.allocB +
        env.cost Step.allocR + env.cost Step.writeIter + env.cost Step.writeA +
        env.cost Step.writeB + env.cost Step.dispatch + env.cost Step.readR := by
  refine ⟨s.clock + setupCost env, s.clock + setupCost env + timedCost env, ?_, ?_, ?_⟩
  · rw [pipeline_ok kernel env h]
    rfl
  · rw [pipeline_ok kernel env h]
    simp [toMicroseconds]
  · simp [timedCost]

/-- Witness for C5 as amended: the run with slow allocations. -/
theorem timed_interval_includes_allocation_witness :
    ∃ t1 t2 : Int,
      (make_opencl_benchmark sampleKernel slowAlloc ⟨0⟩ 4 1 [1, 2, 3, 4] [10, 20, 30, 40]
        ⟨0, [0, 0, 0, 0], []⟩).1 = Res.ok (toMicroseconds t2 t1) ∧ t2 - t1 = 4000000 := by
  obtain ⟨t1, t2, _, h2, h3⟩ := timed_interval_includes_allocation sampleKernel slowAlloc
    (by decide) ⟨0⟩ 4 1 [1, 2, 3, 4] [10, 20, 30, 40] ⟨0, [0, 0, 0, 0], []⟩
  exact ⟨t1, t2, h2, h3.trans (by decide)⟩

/-- C9: when every driver call succeeds, the host output buffer after a pipeline
run holds exactly the kernel's values for the `n` indices, a function of `n`,
the iteration count and the inputs `A` and `B` alone: two runs started from
different output buffers of `n` floats end with the same contents, and a second
run right after the first leaves the contents of the first; a call on the
workload never changes its inputs `vecA` and `vecB`. -/
theorem pipeline_output_deterministic
    (kernel : Nat → List FloatBits → List FloatBits → Nat → FloatBits)
    (env1 env2 : RunEnv) (h1 : env1.healthy) (h2 : env2.healthy) (device : Device)
    (n iter : Nat) (A B : List FloatBits) (s1 s2 : PipeState)
    (hs1 : s1.matR.length = n) (hs2 : s2.matR.length = n) :
    (make_opencl_benchmark kernel env1 device n iter A B s1).2.matR =
      (List.range n).map (kernel iter (A.take n) (B.take n)) ∧
    (make_opencl_benchmark kernel env2 device n iter A B s2).2.matR =
      (make_opencl_benchmark kernel env1 device n iter A B s1).2.matR ∧
    (make_opencl_benchmark kernel env2 device n iter A B
        (make_opencl_benchmark kernel env1 device n iter A B s1).2).2.matR =
      (make_opencl_benchmark kernel env1 device n iter A B s1).2.matR ∧
    (∀ (env : RunEnv) (b : BenchState),
      (callPipeline kernel env device b).2.bo.vecA = b.bo.vecA ∧
      (callPipeline kernel env device b).2.bo.vecB = b.bo.vecB) := by
  have key : ∀ (env : RunEnv), env.healthy → ∀ s : PipeState, s.matR.length = n →
      (make_opencl_benchmark kernel env device n iter A B s).2.matR =
        (List.range n).map (kernel iter (A.take n) (B.take n)) := by
    intro env he s hs
    rw [pipeline_ok kernel env he, deviceOutput_eq, copyFloats_kernelOutput]
    simp [kernelOutput, List.drop_of_length_le, hs]
  refine ⟨key env1 h1 s1 hs1, ?_, ?_, ?_⟩
  · rw [key env2 h2 s2 hs2, key env1 h1 s1 hs1]
  · rw [key env2 h2 _ (by rw [key env1 h1 s1 hs1]; simp), key env1 h1 s1 hs1]
  · intro env b
    exact ⟨rfl, rfl⟩

/-- Witness for C9: two runs of the sample kernel from different output buffers. -/
theorem pipeline_output_deterministic_witness :
    (make_opencl_benchmark sampleKernel quietRun ⟨0⟩ 4 1 [1, 2, 3, 4] [10, 20, 30, 40]
        ⟨0, [0, 0, 0, 0], []⟩).2.matR = [11, 22, 33, 44] ∧
    (make_opencl_benchmark sampleKernel slowAlloc ⟨0⟩ 4 1 [1, 2, 3, 4] [10, 20, 30, 40]
        ⟨5, [9, 9, 9, 9], []⟩).2.matR =
      (make_opencl_benchmark sampleKernel quietRun ⟨0⟩ 4 1 [1, 2, 3, 4] [10, 20, 30, 40]
        ⟨0, [0, 0, 0, 0], []⟩).2.matR := by
  have h := pipeline_output_deterministic sampleKernel quietRun slowAlloc (by decide) (by decide)
    ⟨0⟩ 4 1 [1, 2, 3, 4] [10, 20, 30, 40] ⟨0, [0, 0, 0, 0], []⟩ ⟨5, [9, 9, 9, 9], []⟩ rfl rfl
  exact ⟨h.1.trans (by decide), h.2.1⟩

theorem platformDevices_append (ps qs : List PlatformEntry) :
    platformDevices (ps ++ qs) = platformDevices ps ++ platformDevices qs := by
  simp [platformDevices]

theorem benchmarkFrom_devices (kernel : Nat → List FloatBits → List FloatBits → Nat → FloatBits)
    (cp : Nat → Nat → Int → String) (tb : BenchmarkedObjectFloat → Bool)
    (env : Nat → DeviceEnv) (cat : List Device) (i : Nat) (bo : BenchmarkedObjectFloat) :
    (benchmarkFrom kernel cp tb env i cat bo).reports.map DeviceReport.device = cat := by
  apply List.ext_getElem?
  intro j
  by_cases hj : j < cat.length
  · rw [List.getElem?_map, benchmarkFrom_getElem? kernel cp tb env cat i bo j hj,
      List.getElem?_eq_getElem hj]
    simp [benchmarkDevice_device]
  · have hl := (benchmarkFrom_length kernel cp tb env cat i bo).1
    rw [List.getElem?_eq_none (by simp; omega), List.getElem?_eq_none (by omega)]

/-- C6: when no query fails, `printInfo` on a module with an empty catalog
returns normally with the catalog equal to the concatenation, in platform
order, of each platform's devices in device order; a platform without devices
adds nothing and the devices of the platforms after it are still appended. -/
theorem discovery_concatenates (host : HostEnv) (h : host.healthy)
    (bo : BenchmarkedObjectFloat) :
    printInfo host ⟨bo, []⟩ =
      (Res.ok (),
       ⟨bo, (host.platformList.map fun p => p.deviceList.map DeviceEntry.device).flatten⟩) ∧
    (∀ (before after : List PlatformEntry) (p : PlatformEntry),
      host.platformList = before ++ p :: after → p.deviceList = [] →
      (printInfo host ⟨bo, []⟩).2.cl_devices =
        (before.map fun q => q.deviceList.map DeviceEntry.device).flatten ++
        (after.map fun q => q.deviceList.map DeviceEntry.device).flatten) := by
  have hp := printInfo_ok host h ⟨bo, []⟩
  refine ⟨?_, ?_⟩
  · rw [hp]
    rfl
  · intro before after p hsplit hempty
    rw [hp]
    show [] ++ platformDevices host.platformList = platformDevices before ++ platformDevices after
    rw [hsplit, platformDevices_append]
    simp [platformDevices, PlatformEntry.devices, hempty]

/-- Witness for C6: three platforms with two, zero and one device. -/
theorem discovery_concatenates_witness :
    printInfo sampleHost ⟨sampleWorkload, []⟩ =
      (Res.ok (), ⟨sampleWorkload, [⟨0⟩, ⟨1⟩, ⟨2⟩]⟩) :=
  (discovery_concatenates sampleHost (by decide) sampleWorkload).1

/-- C8 (the code departs from the claim): with one device whose name query
fails, second of three on the first of two platforms, `printInfo` on a fresh
module ends by throwing the `cl::Error` of that query; the catalog then holds
the first device and the failing one, and neither the third device of that
platform nor the device of the second platform. -/
theorem discovery_aborts_on_bad_device :
    printInfo oneBadDeviceHost ⟨sampleWorkload, []⟩ =
      (Res.thrown ⟨-30, "clGetDeviceInfo"⟩, ⟨sampleWorkload, [⟨0⟩, ⟨1⟩]⟩) ∧
    oneBadDeviceHost.devices = [⟨0⟩, ⟨1⟩, ⟨2⟩, ⟨3⟩] := by
  refine ⟨?_, by decide⟩
  rfl


theorem report_benchmarked (kernel : Nat → List FloatBits → List FloatBits → Nat → FloatBits)
    (cp : Nat → Nat → Int → String) (tb : BenchmarkedObjectFloat → Bool)
    (env : DeviceEnv) (d : Device) (bo : BenchmarkedObjectFloat) :
    (env.nameStatus = CL_SUCCESS →
      ∃ r, (benchmarkDevice kernel cp tb env d ⟨bo, emptyReport d⟩).2.report.calls.head? =
        some (Call.pipeline d bo.vectorSize bo.iterations bo.vecA bo.vecB r)) ∧
    (env.nameStatus = CL_SUCCESS → (∀ i < 4, (env.run i).healthy) →
      (benchmarkDevice kernel cp tb env d ⟨bo, emptyReport d⟩).2.report.calls =
        [Call.pipeline d bo.vectorSize bo.iterations bo.vecA bo.vecB
           (Res.ok ((timedCost (env.run 0)).tdiv 1000)),
         Call.pipeline d bo.vectorSize bo.iterations bo.vecA bo.vecB
           (Res.ok ((timedCost (env.run 1)).tdiv 1000)),
         Call.pipeline d bo.vectorSize bo.iterations bo.vecA bo.vecB
           (Res.ok ((timedCost (env.run 2)).tdiv 1000)),
         Call.pipeline d bo.vectorSize bo.iterations bo.vecA bo.vecB
           (Res.ok ((timedCost (env.run 3)).tdiv 1000)),
         Call.compute_points bo.vectorSize bo.iterations ((timedCost (env.run 3)).tdiv 1000),
         Call.test_benchmark (written kernel bo)] ∧
      (benchmarkDevice kernel cp tb env d ⟨bo, emptyReport d⟩).2.report.line =
        some (if tb (written kernel bo) then
          Line.points (cp bo.vectorSize bo.iterations ((timedCost (env.run 3)).tdiv 1000))
          else Line.invalid)) := by
  rw [forall_healthy_iff]
  rcases benchmarkDevice_shape kernel cp tb env d bo with
    ⟨a1, h⟩ | ⟨a1, a2, e, a3, h⟩ | ⟨a1, a2, a3, e, a4, h⟩ | ⟨a1, a2, a3, a4, e, a5, h⟩ |
    ⟨a1, a2, a3, a4, a5, e, a6, h⟩ | ⟨a1, a2, a3, a4, a5, h⟩ <;>
  rw [h] <;> simp [okCall, badCall, *]

/-- C10: `printInfo` never removes a catalog entry: after any call, failing or
not, the catalog is its value before the call followed by what the same call
leaves in an empty catalog, and the workload is untouched; when no query fails
that addition is the host's device list.  So discovery is not idempotent: on a
host with `k ≥ 1` devices, two calls on a fresh module leave the device list
twice, `2 * k` entries, and a following `benchmark` returns with `2 * k`
reports.  Every device `j` is benchmarked twice, at positions `j` and `k + j`:
each of the two reports is for that device and carries an outcome line, which
is "Failed" exactly when the name query or a logged pipeline invocation raised;
when the name query succeeds the report starts with a pipeline invocation on
that device and the workload; and when moreover no driver call fails it holds
the four invocations, the score call on the fourth time and the correctness
check, and its line is the points or "Invalid result". -/
theorem catalog_only_grows (host : HostEnv) :
    (∀ m : ModuleOpencl,
      (printInfo host m).2.cl_devices =
        m.cl_devices ++ (printInfo host { m with cl_devices := [] }).2.cl_devices ∧
      (printInfo host m).2.bo = m.bo) ∧
    (host.healthy → ∀ m : ModuleOpencl,
      printInfo host m = (Res.ok (), { m with cl_devices := m.cl_devices ++ host.devices })) ∧
    (host.healthy → 1 ≤ host.devices.length → ∀ bo : BenchmarkedObjectFloat,
      (printInfo host (printInfo host ⟨bo, []⟩).2).2.cl_devices = host.devices ++ host.devices ∧
      (printInfo host (printInfo host ⟨bo, []⟩).2).2.cl_devices.length =
        2 * host.devices.length ∧
      (printInfo host (printInfo host ⟨bo, []⟩).2).2.cl_devices ≠
        (printInfo host ⟨bo, []⟩).2.cl_devices ∧
      ∀ (kernel : Nat → List FloatBits → List FloatBits → Nat → FloatBits)
        (cp : Nat → Nat → Int → String) (tb : BenchmarkedObjectFloat → Bool)
        (env : Nat → DeviceEnv),
        (benchmark kernel cp tb env
          (printInfo host (printInfo host ⟨bo, []⟩).2).2).reports.length =
            2 * host.devices.length ∧
        (benchmark kernel cp tb env
          (printInfo host (printInfo host ⟨bo, []⟩).2).2).reports.map DeviceReport.device =
            host.devices ++ host.devices ∧
        (benchmark kernel cp tb env
          (printInfo host (printInfo host ⟨bo, []⟩).2).2).result = Res.ok () ∧
        ∀ (j : Nat) (hj : j < host.devices.length) (p : Nat),
          (p = j ∨ p = host.devices.length + j) →
          ∃ rep,
            (benchmark kernel cp tb env
              (printInfo host (printInfo host ⟨bo, []⟩).2).2).reports[p]? = some rep ∧
            rep.device = host.devices[j] ∧
            rep.line ≠ none ∧
            (rep.line = some Line.failed ↔
              ((env p).nameStatus ≠ CL_SUCCESS ∨ ∃ c ∈ rep.calls, c.raised = true)) ∧
            ((env p).nameStatus = CL_SUCCESS →
              ∃ r, rep.calls.head? =
                some (Call.pipeline host.devices[j] bo.vectorSize bo.iterations bo.vecA
                  bo.vecB r)) ∧
            ((env p).nameStatus = CL_SUCCESS → (∀ i < 4, ((env p).run i).healthy) →
              rep.calls =
                [Call.pipeline host.devices[j] bo.vectorSize bo.iterations bo.vecA bo.vecB
                   (Res.ok ((timedCost ((env p).run 0)).tdiv 1000)),
                 Call.pipeline host.devices[j] bo.vectorSize bo.iterations bo.vecA bo.vecB
                   (Res.ok ((timedCost ((env p).run 1)).tdiv 1000)),
                 Call.pipeline host.devices[j] bo.vectorSize bo.iterations bo.vecA bo.vecB
                   (Res.ok ((timedCost ((env p).run 2)).tdiv 1000)),
                 Call.pipeline host.devices[j] bo.vectorSize bo.iterations bo.vecA bo.vecB
                   (Res.ok ((timedCost ((env p).run 3)).tdiv 1000)),
                 Call.compute_points bo.vectorSize bo.iterations
                   ((timedCost ((env p).run 3)).tdiv 1000),
                 Call.test_benchmark (written kernel bo)] ∧
              rep.line =
                some (if tb (written kernel bo) then
                  Line.points (cp bo.vectorSize bo.iterations
                    ((timedCost ((env p).run 3)).tdiv 1000))
                  else Line.invalid))) := by
  refine ⟨?_, ?_, ?_⟩
  · intro m
    obtain ⟨r, added, ha⟩ := appendOnly_printInfo host
    rw [ha m, ha { m with cl_devices := [] }]
    simp
  · intro h m
    exact printInfo_ok host h m
  · intro h hk bo
    have e1 := printInfo_ok host h ⟨bo, []⟩
    have e2 := printInfo_ok host h ⟨bo, [] ++ host.devices⟩
    rw [e1]
    simp only at e2 ⊢
    rw [e2]
    simp only [List.nil_append]
    refine ⟨trivial, by simp only [List.length_append]; omega, ?_, ?_⟩
    · intro hcontra
      have := congrArg List.length hcontra
      simp only [List.length_append] at this
      omega
    · intro kernel cp tb env
      refine ⟨?_, benchmarkFrom_devices kernel cp tb env _ 0 bo,
        (benchmarkFrom_length kernel cp tb env _ 0 bo).2, ?_⟩
      · rw [benchmark, (benchmarkFrom_length kernel cp tb env _ 0 bo).1]
        simp only [List.length_append]
        omega
      · intro j hj p hp
        have hplt : p < (host.devices ++ host.devices).length := by
          simp only [List.length_append]
          rcases hp with rfl | rfl <;> omega
        have hdev : (host.devices ++ host.devices)[p] = host.devices[j] := by
          rcases hp with rfl | rfl
          · exact List.getElem_append_left hj
          · rw [List.getElem_append_right (by omega)]
            simp
        have hget := benchmarkFrom_getElem? kernel cp tb env (host.devices ++ host.devices) 0 bo
          p hplt
        rw [Nat.zero_add, hdev] at hget
        refine ⟨_, hget, benchmarkDevice_device kernel cp tb _ _ _,
          (report_line kernel cp tb _ _ _).1, ?_,
          (report_benchmarked kernel cp tb _ _ _).1, (report_benchmarked kernel cp tb _ _ _).2⟩
        rw [(report_line kernel cp tb _ _ _).2, report_raised_iff]
        by_cases hname : (env p).nameStatus = CL_SUCCESS <;> simp [hname]

/-- Witness for C10: two discovery calls on the sample host of three devices;
the fourth report is the second benchmark of the first device. -/
theorem catalog_only_grows_witness :
    (printInfo sampleHost (printInfo sampleHost ⟨sampleWorkload, []⟩).2).2.cl_devices =
      [⟨0⟩, ⟨1⟩, ⟨2⟩, ⟨0⟩, ⟨1⟩, ⟨2⟩] ∧
    (benchmark sampleKernel samplePoints sampleTest sampleSession
      (printInfo sampleHost (printInfo sampleHost ⟨sampleWorkload, []⟩).2).2).reports.length = 6 ∧
    ∃ rep,
      (benchmark sampleKernel samplePoints sampleTest sampleSession
        (printInfo sampleHost (printInfo sampleHost ⟨sampleWorkload, []⟩).2).2).reports[3]? =
          some rep ∧
      rep.device = ⟨0⟩ ∧ rep.calls.length = 6 ∧ rep.line = some (Line.points "fast") := by
  have h := (catalog_only_grows sampleHost).2.2 (by decide) (by decide) sampleWorkload
  have hb := h.2.2.2 sampleKernel samplePoints sampleTest sampleSession
  refine ⟨h.1, hb.1, ?_⟩
  obtain ⟨rep, g1, g2, _, _, _, g6⟩ := hb.2.2.2 0 (by decide) 3 (Or.inr rfl)
  obtain ⟨c, l⟩ := g6 rfl (fun i _ => by
    show quietRun.healthy
    decide)
  refine ⟨rep, g1, g2, ?_, ?_⟩
  · rw [c]
    rfl
  · rw [l]
    decide

end OpenclBench
